import Mathlib

/-!
# Cartesian adaptive compliance controller

A shallow embedding of
`src/cartesian_adaptive_compliance_controller/src/cartesian_adaptive_compliance_controller.cpp`.

Modelling conventions.

* A C++ `double` is an exact rational number (`ℚ`): rounding, infinities and NaN are
  outside the model.  `std::sqrt` and `std::pow` with the exponent `1.35` have no rational
  counterpart and are taken from the environment `Env`; `pow(e, 2)` is the square `e ^ 2`.
* `rclcpp::Time` and `rclcpp::Duration` are their nanosecond counts (`Int`).
* The class members the source file uses are the fields of `Ctrl`, under their source
  names.  Members whose initial value is set in the header (`R`, `Q`, `kd_min`, `kd_max`,
  `F_max`, `F_min`, `kd`, ...) are ordinary fields, so every theorem quantifies over them.
* Calls to collaborators that live outside the file (IK solver, joint command layer,
  telemetry publisher, qpOASES) are recorded, in call order, in the field `log`.
  Console output (`cout`) is not modelled.
-/

namespace AdaptiveCompliance

/-! ## Data model -/

/-- The type `ctrl::Vector3D`. -/
abbrev Vec3 := Fin 3 → ℚ

/-- The type `ctrl::Vector6D`. -/
abbrev Vec6 := Fin 6 → ℚ

/-- A dense 3×3 block. -/
abbrev Mat3 := Fin 3 → Fin 3 → ℚ

/-- The type `ctrl::Matrix6D`. -/
abbrev Mat6 := Fin 6 → Fin 6 → ℚ

/-- The seven arrays handed to `QProblem::init`, with the working-set budget `nWSR`.
`H` (3×3) and `A` (5×3) are flat row-major arrays, as in the source. -/
structure QPData where
  H : List ℚ
  g : List ℚ
  A : List ℚ
  lb : List ℚ
  ub : List ℚ
  lbA : List ℚ
  ubA : List ℚ
  nWSR : Int

/-- Calls to collaborators outside the source file, in the order they are made. -/
inductive Event where
  /-- The call `Base::m_ik_solver->synchronizeJointPositions(...)` -/
  | sync : Event
  /-- The call `min_problem.init(H, g, A, lb, ub, lbA, ubA, nWSR)` -/
  | solve : QPData → Event
  /-- The call `m_data_publisher->publish(m_data_msg)`, with `m_data_msg.data` -/
  | publish : List ℚ → Event
  /-- One pass of the inner loop of `update`: `computeComplianceError()` followed by
  `Base::computeJointControlCmds(error, internal_period)`, performed with the given
  `m_stiffness` and `m_damping`. -/
  | jointCmd : Mat6 → Mat6 → Event
  /-- The call `Base::writeJointControlCmds()` -/
  | write : Event

/-- The type `controller_interface::return_type`. -/
inductive ReturnType where
  | OK : ReturnType
  | ERROR : ReturnType
  deriving DecidableEq

/-- The type `LifecycleNodeInterface::CallbackReturn`. -/
inductive CallbackReturn where
  | SUCCESS : CallbackReturn
  | FAILURE : CallbackReturn
  | ERROR : CallbackReturn
  deriving DecidableEq

/-- What the source file takes from libraries and from the part of the repository that is
not in the file. -/
structure Env where
  /-- The library function `std::sqrt` -/
  sqrt : ℚ → ℚ
  /-- The library function `std::pow` (used with the exponent `1.35`) -/
  pow : ℚ → ℚ → ℚ
  /-- The value of `getSimpleStatus(min_problem.init(...))` together with the vector that
  `min_problem.getPrimalSolution(xOpt)` writes afterwards.  `init` is a cold start, so the
  outcome is a function of the data passed in. -/
  solve : QPData → Int × Vec3
  /-- The function `findClosestIndex(grid, value)`, declared outside the source file. -/
  findClosestIndex : List ℚ → ℚ → Nat

/-- The status `SUCCESSFUL_RETURN` of qpOASES. -/
def SUCCESSFUL_RETURN : Int := 0

/-- What one call of `update` reads from its surroundings. -/
structure TickInput where
  /-- The clock reading `get_node()->get_clock()->now()` in nanoseconds -/
  now : Int
  /-- position part of the forward kinematics in `getEndEffectorPoseReal` -/
  p : Vec3
  /-- velocity part of the forward kinematics in `getEndEffectorPoseReal` -/
  v : Vec3
  /-- The target position `MotionBase::m_target_frame.p` -/
  target : Vec3
  /-- parameters `stiffness.rot_x`, `stiffness.rot_y`, `stiffness.rot_z` -/
  rot : Vec3
  /-- The inner iteration count `Base::m_iterations` -/
  iterations : Int

/-- The members of `CartesianAdaptiveComplianceController` that the source file reads or
writes, and the log of collaborator calls. -/
structure Ctrl where
  old_time : Int
  current_time : Int
  start_time : Int
  Xt : ℚ
  dXt : ℚ
  tank_energy : ℚ
  tank_energy_threshold : ℚ
  m_ft_sensor_wrench : Vec3
  m_starting_pose : Vec3
  x_d_old : Vec3
  m_prev_error : Vec6
  m_surf_vel : List ℚ
  m_surf_vel_sum : ℚ
  old_z : ℚ
  m_x : Vec3
  m_x_dot : Vec3
  m_deltaT : ℚ
  m_sigma : ℚ
  energy_var_damping : ℚ
  energy_var_stiff : ℚ
  F_min : Vec3
  F_max : Vec3
  R : Vec3
  Q : Vec3
  kd_min : Vec3
  kd_max : Vec3
  kd : Vec3
  stiffness : Vec6
  m_stiffness : Mat6
  m_damping : Mat6
  print_index : Int
  m_x_coordinates : List ℚ
  m_y_coordinates : List ℚ
  m_z_values : Nat → Nat → ℚ
  m_stiffness_values : Nat → Nat → ℚ
  m_damping_values : Nat → Nat → ℚ
  log : List Event

/-! ## Small linear algebra -/

/-- The value of `v.asDiagonal()` assigned to a dense matrix. -/
def asDiagonal (v : Vec6) : Mat6 := fun i j => if i = j then v i else 0

/-- The block `M.block<3, 3>(0, 0)`. -/
def block33 (M : Mat6) : Mat3 :=
  ![![M 0 0, M 0 1, M 0 2], ![M 1 0, M 1 1, M 1 2], ![M 2 0, M 2 1, M 2 2]]

/-- The product `u.transpose() * M * w` for a dense 3×3 block. -/
def quadForm (u : Vec3) (M : Mat3) (w : Vec3) : ℚ :=
  (u 0 * M 0 0 + u 1 * M 1 0 + u 2 * M 2 0) * w 0 +
  (u 0 * M 0 1 + u 1 * M 1 1 + u 2 * M 2 1) * w 1 +
  (u 0 * M 0 2 + u 1 * M 1 2 + u 2 * M 2 2) * w 2

/-- The product `u.transpose() * d.asDiagonal() * w`. -/
def diagForm (u d w : Vec3) : ℚ :=
  u 0 * d 0 * w 0 + u 1 * d 1 * w 1 + u 2 * d 2 * w 2

/-! ## The function `computeStiffness` -/

/-- The local variables of `computeStiffness` that are alive at line 406, where the
function branches on the tank level. -/
structure Locals where
  max_pen : ℚ
  power_limit : ℚ
  x : Vec3
  x_d : Vec3
  velocity_error : Vec3
  z_value : ℚ
  stiffness_value : ℚ
  damping_value : ℚ
  surf_vel : ℚ
  F_ref : Vec3
  position_error : Vec3
  H : List ℚ
  g : List ℚ
  lb : List ℚ
  ub : List ℚ

/-- Lines 268-406 of `computeStiffness`: pose read-out, surface look-up, surface-velocity
ring, reference force, tank gate `m_sigma`, the arrays `H`, `g`, `lb`, `ub` and
`energy_var_damping`.  Returns the locals and the controller state at line 406. -/
def prologue (env : Env) (inp : TickInput) (c0 : Ctrl) : Locals × Ctrl :=
  -- getEndEffectorPoseReal()
  let c1 : Ctrl := { c0 with m_x := inp.p, m_x_dot := inp.v }
  -- rclcpp::Duration deltaT_ros = current_time - old_time
  let deltaT_ros : Int := c1.current_time - c1.old_time
  let max_pen : ℚ := 0.008
  let power_limit : ℚ := 0.1
  let c2 : Ctrl := { c1 with m_deltaT := (deltaT_ros : ℚ) * 1e-9 }
  let x : Vec3 := ![c2.m_x 0, c2.m_x 1, c2.m_x 2]
  let x_d : Vec3 := ![inp.target 0, inp.target 1, inp.target 2]
  let velocity_error : Vec3 := ![-c2.m_x_dot 0, -c2.m_x_dot 1, -c2.m_x_dot 2]
  let x_index : Nat := env.findClosestIndex c2.m_x_coordinates (x 0)
  let y_index : Nat := env.findClosestIndex c2.m_y_coordinates (x 1)
  let z_value : ℚ := c2.m_z_values x_index y_index
  let stiffness_value : ℚ := c2.m_stiffness_values x_index y_index
  let damping_value : ℚ := c2.m_damping_values x_index y_index
  -- m_surf_vel_sum -= m_surf_vel.front(); m_surf_vel.pop();
  let c3 : Ctrl := { c2 with m_surf_vel_sum := c2.m_surf_vel_sum - c2.m_surf_vel.headD 0 }
  let c4 : Ctrl := { c3 with m_surf_vel := c3.m_surf_vel.tail }
  let sv : ℚ := (z_value - c4.old_z) / c4.m_deltaT
  let c5 : Ctrl := { c4 with m_surf_vel := c4.m_surf_vel ++ [sv] }
  let c6 : Ctrl := { c5 with m_surf_vel_sum := c5.m_surf_vel_sum + sv }
  let c7 : Ctrl := { c6 with old_z := z_value }
  let surf_vel : ℚ := c7.m_surf_vel_sum / (c7.m_surf_vel.length : ℚ)
  -- F_ref = {0, 0, 0}; then F_ref(2) and F_min(2) are assigned in the branch taken by
  -- `if (m_ft_sensor_wrench(2) < -0.5)`
  let F_ref : Vec3 :=
    ![0.0, 0.0,
      if c7.m_ft_sensor_wrench 2 < -0.5 then
        -(stiffness_value * env.pow max_pen 1.35 -
          damping_value * env.pow max_pen 1.35 * (c7.m_x_dot 2 - surf_vel))
      else 0.0]
  let c8 : Ctrl :=
    { c7 with F_min :=
        ![c7.F_min 0, c7.F_min 1,
          if c7.m_ft_sensor_wrench 2 < -0.5 then -9 else -c7.F_max 2] }
  -- m_sigma is assigned in the branch taken by `if (tank_energy >= 1.0)`
  let c9 : Ctrl := { c8 with m_sigma := if c8.tank_energy ≥ 1.0 then 0.0 else 1.0 }
  let position_error : Vec3 := fun i => x_d i - x i
  let H : List ℚ :=
    [c9.R 0 + c9.Q 0 * position_error 0 ^ 2, 0, 0, 0,
     c9.R 1 + c9.Q 1 * position_error 1 ^ 2, 0, 0, 0,
     c9.R 2 + c9.Q 2 * position_error 2 ^ 2]
  let g : List ℚ :=
    [-c9.kd_min 0 * c9.R 0 +
       (-F_ref 0 + c9.m_damping 0 0 * velocity_error 0) * position_error 0 * c9.Q 0,
     -c9.kd_min 1 * c9.R 1 +
       (-F_ref 1 + c9.m_damping 1 1 * velocity_error 1) * position_error 1 * c9.Q 1,
     -c9.kd_min 2 * c9.R 2 +
       (-F_ref 2 + c9.m_damping 2 2 * velocity_error 2) * position_error 2 * c9.Q 2]
  let lb : List ℚ := [c9.kd_min 0, c9.kd_min 1, c9.kd_min 2]
  let ub : List ℚ := [c9.kd_max 0, c9.kd_max 1, c9.kd_max 2]
  let c10 : Ctrl :=
    { c9 with energy_var_damping :=
        c9.m_sigma * quadForm velocity_error (block33 c9.m_damping) velocity_error }
  ({ max_pen := max_pen, power_limit := power_limit, x := x, x_d := x_d,
     velocity_error := velocity_error, z_value := z_value,
     stiffness_value := stiffness_value, damping_value := damping_value,
     surf_vel := surf_vel, F_ref := F_ref, position_error := position_error,
     H := H, g := g, lb := lb, ub := ub }, c10)

/-- The initializer list of `m_data_msg.data`.  The source writes it three times (lines
417-449, 505-537 and 572-604) with the same text; `c` is the controller state at the
place where the list is evaluated. -/
def m_data (env : Env) (l : Locals) (c : Ctrl) : List ℚ :=
  [(c.current_time : ℚ) * 1e-9,
   l.x 0,
   l.x 1,
   l.x 2,
   l.x_d 0,
   l.x_d 1,
   l.x_d 2,
   c.kd 2 * l.position_error 2 + 2 * 0.707 * env.sqrt (c.kd 2) * l.velocity_error 2,
   c.m_ft_sensor_wrench 0,
   c.m_ft_sensor_wrench 1,
   c.m_ft_sensor_wrench 2,
   l.F_ref 2,
   c.tank_energy,
   (c.energy_var_stiff + c.energy_var_damping) * c.m_deltaT,
   c.kd 0,
   c.kd 1,
   c.kd 2,
   c.kd_max 2,
   c.kd_min 2,
   l.z_value + 0.0025 - l.x 2,
   l.stiffness_value,
   l.damping_value,
   c.F_min 2,
   l.stiffness_value * env.pow (l.z_value + 0.0025 - l.x 2) 1.35 -
     l.damping_value * env.pow (l.z_value + 0.0025 - l.x 2) 1.35 * (c.m_x_dot 2 - l.surf_vel),
   l.max_pen,
   c.tank_energy_threshold,
   l.power_limit,
   c.m_x_dot 0,
   c.m_x_dot 1,
   c.m_x_dot 2,
   l.surf_vel]

/-- Lines 455-487: the tank rows, the arrays `A`, `ubA`, `lbA` and the budget `nWSR`,
put together with `H`, `g`, `lb`, `ub` as the argument list of `min_problem.init`. -/
def constraintsQP (l : Locals) (c : Ctrl) : QPData :=
  let T_constr_min : ℚ :=
    -c.energy_var_damping + diagForm l.position_error c.kd_min l.velocity_error +
      (c.tank_energy_threshold - c.tank_energy) / c.m_deltaT
  let T_dot_min : ℚ :=
    -c.energy_var_damping + diagForm l.position_error c.kd_min l.velocity_error -
      l.power_limit
  let A : List ℚ :=
    [l.x_d 0 - l.x 0, 0, 0,
     0, l.x_d 1 - l.x 1, 0,
     0, 0, l.x_d 2 - l.x 2,
     l.position_error 0 * l.velocity_error 0,
     l.position_error 1 * l.velocity_error 1,
     l.position_error 2 * l.velocity_error 2,
     l.position_error 0 * l.velocity_error 0,
     l.position_error 1 * l.velocity_error 1,
     l.position_error 2 * l.velocity_error 2]
  let ubA : List ℚ :=
    [c.F_max 0 - c.m_damping 0 0 * l.velocity_error 0,
     c.F_max 1 - c.m_damping 1 1 * l.velocity_error 1,
     c.F_max 2 - c.m_damping 2 2 * l.velocity_error 2, 1e9, 1e9]
  let lbA : List ℚ :=
    [c.F_min 0 - c.m_damping 0 0 * l.velocity_error 0,
     c.F_min 1 - c.m_damping 1 1 * l.velocity_error 1,
     c.F_min 2 - c.m_damping 2 2 * l.velocity_error 2, T_constr_min, T_dot_min]
  { H := l.H, g := l.g, A := A, lb := l.lb, ub := l.ub, lbA := lbA, ubA := ubA, nWSR := 10 }

/-- The quadratic program that `computeStiffness` hands to the solver when it is entered
in state `c0`. -/
def assembleQP (env : Env) (inp : TickInput) (c0 : Ctrl) : QPData :=
  constraintsQP (prologue env inp c0).1 (prologue env inp c0).2

/-- Lines 408-452: the empty-tank branch. -/
def emptyTank (env : Env) (l : Locals) (c : Ctrl) : Vec6 × Ctrl :=
  let c1 : Ctrl := { c with stiffness := ![c.kd_min 0, c.kd_min 1, c.kd_min 2, 50.0, 50.0, 50.0] }
  let c2 : Ctrl :=
    { c1 with tank_energy := c1.tank_energy_threshold + c1.energy_var_damping * c1.m_deltaT }
  let c3 : Ctrl := { c2 with log := c2.log ++ [Event.publish (m_data env l c2)] }
  (c3.stiffness, c3)

/-- Lines 497-540: the branch taken when the solver does not report success. -/
def qpFailure (env : Env) (l : Locals) (c : Ctrl) : Vec6 × Ctrl :=
  let c1 : Ctrl := { c with stiffness := ![c.kd_min 0, c.kd_min 1, c.kd_min 2, 50.0, 50.0, 50.0] }
  let c2 : Ctrl :=
    { c1 with tank_energy := c1.tank_energy + c1.energy_var_damping * c1.m_deltaT }
  let c3 : Ctrl := { c2 with log := c2.log ++ [Event.publish (m_data env l c2)] }
  (c3.stiffness, c3)

/-- Lines 543-608: the branch taken when the solver reports success with solution `xOpt`. -/
def qpSuccess (env : Env) (l : Locals) (xOpt : Vec3) (c : Ctrl) : Vec6 × Ctrl :=
  let c1 : Ctrl := { c with stiffness := ![xOpt 0, xOpt 1, xOpt 2, 50.0, 50.0, 50.0] }
  let c2 : Ctrl := { c1 with kd := ![c1.stiffness 0, c1.stiffness 1, c1.stiffness 2] }
  let c3 : Ctrl :=
    { c2 with energy_var_stiff :=
        diagForm l.position_error (fun i => c2.kd i - c2.kd_min i) l.velocity_error }
  let c4 : Ctrl :=
    { c3 with tank_energy :=
        c3.tank_energy + (c3.energy_var_stiff + c3.energy_var_damping) * c3.m_deltaT }
  let c5 : Ctrl := { c4 with print_index := c4.print_index + 1 }
  let c6 : Ctrl := { c5 with log := c5.log ++ [Event.publish (m_data env l c5)] }
  (c6.stiffness, c6)

/-- The function `CartesianAdaptiveComplianceController::computeStiffness` (lines 265-609). -/
def computeStiffness (env : Env) (inp : TickInput) (c0 : Ctrl) : Vec6 × Ctrl :=
  let l : Locals := (prologue env inp c0).1
  let c : Ctrl := (prologue env inp c0).2
  if c.tank_energy < c.tank_energy_threshold then
    emptyTank env l c
  else
    let qp : QPData := constraintsQP l c
    -- ret_val = getSimpleStatus(min_problem.init(...)); min_problem.getPrimalSolution(xOpt)
    let c1 : Ctrl := { c with log := c.log ++ [Event.solve qp] }
    let ret_val : Int := (env.solve qp).1
    let xOpt : Vec3 := (env.solve qp).2
    if ret_val ≠ SUCCESSFUL_RETURN then
      qpFailure env l c1
    else
      qpSuccess env l xOpt c1

/-! ## Lifecycle callbacks and `update` -/

/-- The value of `rclcpp::Duration::from_seconds(0.0001).nanoseconds()`. -/
def coalesceWindow : Int := 100000

/-- The function `CartesianAdaptiveComplianceController::update` (lines 161-207). -/
def update (env : Env) (inp : TickInput) (c0 : Ctrl) : ReturnType × Ctrl :=
  let c1 : Ctrl := { c0 with current_time := inp.now }
  if |c1.current_time - c1.old_time| < coalesceWindow then
    (ReturnType.OK, c1)
  else
    let c2 : Ctrl := { c1 with log := c1.log ++ [Event.sync] }
    let tmp0 : Vec6 := (computeStiffness env inp c2).1
    let c3 : Ctrl := (computeStiffness env inp c2).2
    let tmp : Vec6 := ![tmp0 0, tmp0 1, tmp0 2, inp.rot 0, inp.rot 1, inp.rot 2]
    let c4 : Ctrl := { c3 with m_stiffness := asDiagonal tmp }
    let c5 : Ctrl :=
      { c4 with m_damping := fun i j => 2.0 * 0.707 * env.sqrt (c4.m_stiffness i j) }
    let c6 : Ctrl :=
      { c5 with log := c5.log ++
          List.replicate inp.iterations.toNat (Event.jointCmd c5.m_stiffness c5.m_damping) }
    let c7 : Ctrl := { c6 with log := c6.log ++ [Event.write] }
    let c8 : Ctrl := { c7 with old_time := c7.current_time }
    let c9 : Ctrl := { c8 with x_d_old := ![inp.target 0, inp.target 1, inp.target 2] }
    (ReturnType.OK, c9)

/-- The function `CartesianAdaptiveComplianceController::on_activate` (lines 93-146).  `motion_ok` and
`force_ok` say whether `MotionBase::on_activate` and `ForceBase::on_activate` succeed,
`now` is the clock reading and `frame_p` is `MotionBase::m_current_frame.p`. -/
def on_activate (motion_ok force_ok : Bool) (now : Int) (frame_p : Vec3) (c0 : Ctrl) :
    CallbackReturn × Ctrl :=
  if motion_ok = false ∨ force_ok = false then
    (CallbackReturn.ERROR, c0)
  else
    let c1 : Ctrl := { c0 with m_starting_pose := ![frame_p 0, frame_p 1, frame_p 2] }
    let c2 : Ctrl := { c1 with start_time := now, current_time := now, old_time := now }
    let c3 : Ctrl := { c2 with Xt := 1.0 }
    let c4 : Ctrl := { c3 with dXt := 0.0 }
    let c5 : Ctrl := { c4 with tank_energy := 0.5 * c4.Xt * c4.Xt }
    let c6 : Ctrl := { c5 with tank_energy_threshold := 0.4 }
    let c7 : Ctrl := { c6 with m_ft_sensor_wrench := fun _ => 0 }
    let c8 : Ctrl :=
      { c7 with x_d_old := ![c7.m_starting_pose 0, c7.m_starting_pose 1, c7.m_starting_pose 2] }
    let c9 : Ctrl := { c8 with m_prev_error := fun _ => 0 }
    -- for (size_t i = 0; i < 10; i++) m_surf_vel.push(0.0);
    let c10 : Ctrl := { c9 with m_surf_vel := c9.m_surf_vel ++ List.replicate 10 0.0 }
    let c11 : Ctrl := { c10 with m_surf_vel_sum := 0.0 }
    (CallbackReturn.SUCCESS, c11)

/-- The function `CartesianAdaptiveComplianceController::on_deactivate` (lines 148-158). -/
def on_deactivate (motion_ok force_ok : Bool) (c0 : Ctrl) : CallbackReturn × Ctrl :=
  if motion_ok = false ∨ force_ok = false then
    (CallbackReturn.ERROR, c0)
  else
    (CallbackReturn.SUCCESS, c0)

/-- The function `CartesianAdaptiveComplianceController::ftSensorWrenchCallback` (lines
252-263). -/
def ftSensorWrenchCallback (force : Vec3) (c0 : Ctrl) : Ctrl :=
  { c0 with m_ft_sensor_wrench := ![force 0, force 1, force 2] }

/-- A run of `update` calls, one per clock reading and input, in order. -/
def runTicks (env : Env) : List TickInput → Ctrl → Ctrl
  | [], c => c
  | inp :: rest, c => runTicks env rest (update env inp c).2

/-! ## Observations on the log -/

/-- Number of solver invocations recorded in a log. -/
def solverCalls : List Event → Nat
  | [] => 0
  | Event.solve _ :: es => solverCalls es + 1
  | _ :: es => solverCalls es

/-- The data passed to the solver, oldest call first. -/
def solverInputs : List Event → List QPData
  | [] => []
  | Event.solve qp :: es => qp :: solverInputs es
  | _ :: es => solverInputs es

/-- The telemetry records published, oldest first. -/
def published : List Event → List (List ℚ)
  | [] => []
  | Event.publish r :: es => r :: published es
  | _ :: es => published es

/-- Number of `writeJointControlCmds` calls recorded in a log. -/
def jointWrites : List Event → Nat
  | [] => 0
  | Event.write :: es => jointWrites es + 1
  | _ :: es => jointWrites es

/-- The stiffness and damping matrices used by the joint-command passes, oldest first. -/
def jointCmdGains : List Event → List (Mat6 × Mat6)
  | [] => []
  | Event.jointCmd K D :: es => (K, D) :: jointCmdGains es
  | _ :: es => jointCmdGains es

/-- The controller state in which `update` calls `computeStiffness`: the clock has been
read and the IK solver synchronised. -/
def atCall (inp : TickInput) (c : Ctrl) : Ctrl :=
  { c with current_time := inp.now, log := c.log ++ [Event.sync] }

/-- The position error `e = x_d − p` of a tick. -/
def posError (inp : TickInput) : Vec3 := fun i => inp.target i - inp.p i

/-- The velocity error `vₑ = −v` of a tick. -/
def velError (inp : TickInput) : Vec3 := fun i => -inp.v i

/-- The step length `Δt = current_time − old_time` of a tick, in seconds. -/
def stepLength (inp : TickInput) (c : Ctrl) : ℚ := ((inp.now - c.old_time : Int) : ℚ) * 1e-9

/-- The translational diagonal `D_11, D_22, D_33` of a 6×6 matrix. -/
def diag3 (M : Mat6) : Vec3 := ![M 0 0, M 1 1, M 2 2]

/-- A clock reading 50 µs after the previous tick of `restCtrl`. -/
def soonInput : TickInput :=
  { now := 50000, p := ![0, 0, 0.1], v := ![0, 0, 0], target := ![0, 0, 0.1],
    rot := ![100, 100, 100], iterations := 2 }

/-- The entries `Kd_x`, `Kd_y`, `Kd_z` (positions 14, 15, 16, counted from 0) of a
published array. -/
def kdFields (data : List ℚ) : List ℚ := (data.drop 14).take 3

/-! ## The telemetry layout of the specification -/

/-- The telemetry record of the specification (section 4.10), field by field in the
specified order: time, p, x_d, F_ext estimate, raw F/T force, F_ref_z, tank, tank_dot, kd,
kd_max_z, kd_min_z, penetration, kₛ, dₛ, F_min_z, Hunt-Crossley predicted force, max_pen,
T_min, power_limit, v, surf_vel. -/
structure Record where
  time : ℚ
  p : Vec3
  x_d : Vec3
  F_ext : ℚ
  ft : Vec3
  F_ref_z : ℚ
  tank : ℚ
  tank_dot : ℚ
  kd : Vec3
  kd_max_z : ℚ
  kd_min_z : ℚ
  penetration : ℚ
  k_s : ℚ
  d_s : ℚ
  F_min_z : ℚ
  hunt_crossley : ℚ
  max_pen : ℚ
  T_min : ℚ
  power_limit : ℚ
  v : Vec3
  surf_vel : ℚ

/-- The scalars of a record in the order of the specification. -/
def Record.toList (r : Record) : List ℚ :=
  [r.time, r.p 0, r.p 1, r.p 2, r.x_d 0, r.x_d 1, r.x_d 2, r.F_ext,
   r.ft 0, r.ft 1, r.ft 2, r.F_ref_z, r.tank, r.tank_dot, r.kd 0, r.kd 1, r.kd 2,
   r.kd_max_z, r.kd_min_z, r.penetration, r.k_s, r.d_s, r.F_min_z, r.hunt_crossley,
   r.max_pen, r.T_min, r.power_limit, r.v 0, r.v 1, r.v 2, r.surf_vel]

/-- The record that a tick entered in state `c` and left in state `c'` is specified to
publish: the quantities of the tick, named as in the specification. -/
def tickRecord (env : Env) (inp : TickInput) (c c' : Ctrl) : Record :=
  { time := (inp.now : ℚ) * 1e-9
    p := inp.p
    x_d := inp.target
    F_ext := c'.kd 2 * (inp.target 2 - inp.p 2) + 2 * 0.707 * env.sqrt (c'.kd 2) * (-inp.v 2)
    ft := c.m_ft_sensor_wrench
    F_ref_z := (prologue env inp (atCall inp c)).1.F_ref 2
    tank := c'.tank_energy
    tank_dot := (c'.energy_var_stiff + c'.energy_var_damping) * c'.m_deltaT
    kd := c'.kd
    kd_max_z := c.kd_max 2
    kd_min_z := c.kd_min 2
    penetration := (prologue env inp (atCall inp c)).1.z_value + 0.0025 - inp.p 2
    k_s := (prologue env inp (atCall inp c)).1.stiffness_value
    d_s := (prologue env inp (atCall inp c)).1.damping_value
    F_min_z := c'.F_min 2
    hunt_crossley :=
      (prologue env inp (atCall inp c)).1.stiffness_value *
          env.pow ((prologue env inp (atCall inp c)).1.z_value + 0.0025 - inp.p 2) 1.35 -
        (prologue env inp (atCall inp c)).1.damping_value *
          env.pow ((prologue env inp (atCall inp c)).1.z_value + 0.0025 - inp.p 2) 1.35 *
          (inp.v 2 - (prologue env inp (atCall inp c)).1.surf_vel)
    max_pen := 0.008
    T_min := c.tank_energy_threshold
    power_limit := 0.1
    v := inp.v
    surf_vel := (prologue env inp (atCall inp c)).1.surf_vel }

/-! ## The quadratic program as an optimisation problem

The arrays handed to the solver stand for the problem
`minimise ½·kᵀ·H·k + gᵀ·k subject to lb ≤ k ≤ ub and lbA ≤ A·k ≤ ubA`. -/

/-- The value `A_r · k` of constraint row `r` (rows counted from 0, `A` row-major with
three columns) at the point `k`. -/
def QPData.row (qp : QPData) (r : Nat) (k : Vec3) : ℚ :=
  qp.A.getD (3 * r) 0 * k 0 + qp.A.getD (3 * r + 1) 0 * k 1 + qp.A.getD (3 * r + 2) 0 * k 2

/-- The cost `½·kᵀ·H·k + gᵀ·k` (`H` row-major 3×3). -/
def QPData.cost (qp : QPData) (k : Vec3) : ℚ :=
  1 / 2 *
      (k 0 * (qp.H.getD 0 0 * k 0 + qp.H.getD 1 0 * k 1 + qp.H.getD 2 0 * k 2) +
        k 1 * (qp.H.getD 3 0 * k 0 + qp.H.getD 4 0 * k 1 + qp.H.getD 5 0 * k 2) +
        k 2 * (qp.H.getD 6 0 * k 0 + qp.H.getD 7 0 * k 1 + qp.H.getD 8 0 * k 2)) +
    (qp.g.getD 0 0 * k 0 + qp.g.getD 1 0 * k 1 + qp.g.getD 2 0 * k 2)

/-- The point `k` satisfies the bounds `lb ≤ k ≤ ub` and the five rows
`lbA ≤ A·k ≤ ubA`. -/
def QPData.feasible (qp : QPData) (k : Vec3) : Prop :=
  (∀ i : Fin 3, qp.lb.getD i.val 0 ≤ k i ∧ k i ≤ qp.ub.getD i.val 0) ∧
  (∀ r : Fin 5, qp.lbA.getD r.val 0 ≤ qp.row r.val k ∧ qp.row r.val k ≤ qp.ubA.getD r.val 0)

instance (qp : QPData) (k : Vec3) : Decidable (qp.feasible k) := by
  unfold QPData.feasible
  infer_instance

/-! ## Concrete data for evaluating the model -/

/-- A rational square root, exact on squares of rationals (`sqrtQ 100 = 10`). -/
def sqrtQ (q : ℚ) : ℚ := (Nat.sqrt q.num.natAbs : ℚ) / (Nat.sqrt q.den : ℚ)

/-- A rational power, exact for natural exponents; other exponents are rounded down. -/
def powQ (x y : ℚ) : ℚ := x ^ (Int.toNat (Rat.floor y))

/-- A solver outcome: success at the lower bounds. -/
def solveAtLower (qp : QPData) : Int × Vec3 :=
  (0, ![qp.lb.getD 0 0, qp.lb.getD 1 0, qp.lb.getD 2 0])

/-- A solver outcome: the simple status `-2` (infeasible), solution left at zero. -/
def solveInfeasible (_ : QPData) : Int × Vec3 := (-2, fun _ => 0)

/-- An environment whose solver succeeds. -/
def envOk : Env :=
  { sqrt := sqrtQ, pow := powQ, solve := solveAtLower, findClosestIndex := fun _ _ => 0 }

/-- An environment whose solver fails. -/
def envFail : Env :=
  { sqrt := sqrtQ, pow := powQ, solve := solveInfeasible, findClosestIndex := fun _ _ => 0 }

/-- A controller at rest over a flat surface at height `0.098`: tank at `0.5`, threshold
`0.4`, stiffness bounds `100` and `1000`, cached `kd = 300`, stiffness matrix
`diag(100, ..., 100)` and the damping matrix `2·0.707·√100 = 14.14` on the diagonal. -/
def restCtrl : Ctrl :=
  { old_time := 0, current_time := 0, start_time := 0,
    Xt := 1, dXt := 0, tank_energy := 0.5, tank_energy_threshold := 0.4,
    m_ft_sensor_wrench := ![0, 0, 0],
    m_starting_pose := ![0, 0, 0.1], x_d_old := ![0, 0, 0.1],
    m_prev_error := fun _ => 0,
    m_surf_vel := List.replicate 10 0, m_surf_vel_sum := 0, old_z := 0.098,
    m_x := ![0, 0, 0.1], m_x_dot := ![0, 0, 0], m_deltaT := 0,
    m_sigma := 1, energy_var_damping := 0, energy_var_stiff := 0,
    F_min := ![-15, -15, -15], F_max := ![15, 15, 15],
    R := ![1, 1, 1], Q := ![1, 1, 1],
    kd_min := ![100, 100, 100], kd_max := ![1000, 1000, 1000], kd := ![300, 300, 300],
    stiffness := ![300, 300, 300, 50, 50, 50],
    m_stiffness := asDiagonal (fun _ => 100),
    m_damping := asDiagonal (fun _ => 14.14),
    print_index := 0,
    m_x_coordinates := [0], m_y_coordinates := [0],
    m_z_values := fun _ _ => 0.098,
    m_stiffness_values := fun _ _ => 0,
    m_damping_values := fun _ _ => 0,
    log := [] }

/-- The controller `restCtrl` pressing on the surface: measured force `-2` along `z`. -/
def contactCtrl : Ctrl := { restCtrl with m_ft_sensor_wrench := ![0, 0, -2] }

/-- The startup scenario: the controller `restCtrl` with the tank at `1.0`. -/
def startupCtrl : Ctrl := { restCtrl with tank_energy := 1.0 }

/-- The controller `restCtrl` with the force envelope closed: `F_max = (0, 0, 0)` and
`F_min = −F_max`. -/
def zeroFmaxCtrl : Ctrl := { restCtrl with F_max := ![0, 0, 0], F_min := ![0, 0, 0] }

/-- The controller `restCtrl` with the tank drained to `0.3`, below the threshold `0.4`. -/
def drainedCtrl : Ctrl := { restCtrl with tank_energy := 0.3 }

/-- A tick one millisecond after the previous one, end effector at rest on its target. -/
def restInput : TickInput :=
  { now := 1000000, p := ![0, 0, 0.1], v := ![0, 0, 0], target := ![0, 0, 0.1],
    rot := ![100, 100, 100], iterations := 2 }

/-- A tick one millisecond after the previous one, end effector moving at `1 m/s` along
`x` and `5 mm` away from its target along `z`. -/
def movingInput : TickInput :=
  { now := 1000000, p := ![0, 0, 0.1], v := ![1, 0, 0], target := ![0, 0, 0.105],
    rot := ![100, 100, 100], iterations := 2 }

/-- A tick one millisecond after the previous one, end effector `1 mm` short of its target
on every axis and moving towards it at `10 mm/s`. -/
def approachInput : TickInput :=
  { now := 1000000, p := ![0, 0, 0.1], v := ![0.01, 0.01, 0.01],
    target := ![0.001, 0.001, 0.101], rot := ![100, 100, 100], iterations := 2 }

/-- A tick whose clock reading lies one millisecond before the previous one, end effector
moving at `1 m/s` along `x`. -/
def backwardInput : TickInput :=
  { now := -1000000, p := ![0, 0, 0.1], v := ![1, 0, 0], target := ![0, 0, 0.1],
    rot := ![100, 100, 100], iterations := 2 }

/-- A controller after configuration and before its first activation: the queue
`m_surf_vel` still empty as constructed, `old_z = 0.098` as `on_configure` leaves it, over
a flat surface at height `0.1`. -/
def freshCtrl : Ctrl := { restCtrl with m_surf_vel := [], m_z_values := fun _ _ => 0.1 }

/-- The state after activating `freshCtrl` at time `0` and one tick a millisecond later. -/
def firstRun : Ctrl :=
  (update envOk restInput (on_activate true true 0 ![0, 0, 0.1] freshCtrl).2).2

/-- The state after deactivating `firstRun` and activating it again at `2 ms`. -/
def reactivated : Ctrl :=
  (on_activate true true 2000000 ![0, 0, 0.1] (on_deactivate true true firstRun).2).2

/-! ## Basic facts -/

theorem solverCalls_append (xs ys : List Event) :
    solverCalls (xs ++ ys) = solverCalls xs + solverCalls ys := by
  induction xs with
  | nil => simp [solverCalls]
  | cons e es ih => cases e <;> simp [solverCalls, ih, Nat.add_right_comm]

theorem solverInputs_append (xs ys : List Event) :
    solverInputs (xs ++ ys) = solverInputs xs ++ solverInputs ys := by
  induction xs with
  | nil => simp [solverInputs]
  | cons e es ih => cases e <;> simp [solverInputs, ih]

theorem prologue_tank_energy (env : Env) (inp : TickInput) (c : Ctrl) :
    (prologue env inp c).2.tank_energy = c.tank_energy := by
  rfl

theorem prologue_tank_energy_threshold (env : Env) (inp : TickInput) (c : Ctrl) :
    (prologue env inp c).2.tank_energy_threshold = c.tank_energy_threshold := by
  rfl

theorem prologue_kd_min (env : Env) (inp : TickInput) (c : Ctrl) :
    (prologue env inp c).2.kd_min = c.kd_min := by
  rfl

theorem prologue_log (env : Env) (inp : TickInput) (c : Ctrl) :
    (prologue env inp c).2.log = c.log := by
  rfl

theorem prologue_kd_max (env : Env) (inp : TickInput) (c : Ctrl) :
    (prologue env inp c).2.kd_max = c.kd_max := by
  rfl

theorem computeStiffness_empty (env : Env) (inp : TickInput) (c : Ctrl)
    (h : c.tank_energy < c.tank_energy_threshold) :
    computeStiffness env inp c = emptyTank env (prologue env inp c).1 (prologue env inp c).2 := by
  simp [computeStiffness, prologue_tank_energy, prologue_tank_energy_threshold, h]

theorem computeStiffness_failure (env : Env) (inp : TickInput) (c : Ctrl)
    (h : ¬ c.tank_energy < c.tank_energy_threshold)
    (hs : (env.solve (assembleQP env inp c)).1 ≠ SUCCESSFUL_RETURN) :
    computeStiffness env inp c =
      qpFailure env (prologue env inp c).1
        { (prologue env inp c).2 with
          log := (prologue env inp c).2.log ++ [Event.solve (assembleQP env inp c)] } := by
  unfold assembleQP at hs
  simp [computeStiffness, assembleQP, prologue_tank_energy, prologue_tank_energy_threshold, h, hs]

theorem computeStiffness_success (env : Env) (inp : TickInput) (c : Ctrl)
    (h : ¬ c.tank_energy < c.tank_energy_threshold)
    (hs : (env.solve (assembleQP env inp c)).1 = SUCCESSFUL_RETURN) :
    computeStiffness env inp c =
      qpSuccess env (prologue env inp c).1 (env.solve (assembleQP env inp c)).2
        { (prologue env inp c).2 with
          log := (prologue env inp c).2.log ++ [Event.solve (assembleQP env inp c)] } := by
  unfold assembleQP at hs
  simp [computeStiffness, assembleQP, prologue_tank_energy, prologue_tank_energy_threshold, h, hs]

/-- C1: on both fallback paths of `computeStiffness` (tank below the threshold on entry, or
the solver reporting a status other than success) the returned vector is exactly
`(kd_min_x, kd_min_y, kd_min_z, 50, 50, 50)`, and on the empty-tank path no solver call is
made. -/
theorem fallback_returns_kd_min (env : Env) (inp : TickInput) (c : Ctrl)
    (h : c.tank_energy < c.tank_energy_threshold ∨
      (env.solve (assembleQP env inp c)).1 ≠ SUCCESSFUL_RETURN) :
    (computeStiffness env inp c).1 = ![c.kd_min 0, c.kd_min 1, c.kd_min 2, 50, 50, 50] ∧
    (c.tank_energy < c.tank_energy_threshold →
      solverCalls (computeStiffness env inp c).2.log = solverCalls c.log ∧
      solverInputs (computeStiffness env inp c).2.log = solverInputs c.log) := by
  by_cases he : c.tank_energy < c.tank_energy_threshold
  · rw [computeStiffness_empty env inp c he]
    refine ⟨?_, fun _ => ⟨?_, ?_⟩⟩
    · simp only [emptyTank, prologue_kd_min]
      norm_num
    · simp [emptyTank, prologue_log, solverCalls_append, solverCalls]
    · simp [emptyTank, prologue_log, solverInputs_append, solverInputs]
  · have hs : (env.solve (assembleQP env inp c)).1 ≠ SUCCESSFUL_RETURN := by
      rcases h with h | h
      · exact absurd h he
      · exact h
    rw [computeStiffness_failure env inp c he hs]
    refine ⟨?_, fun h' => absurd h' he⟩
    simp only [qpFailure, prologue_kd_min]
    norm_num

/-- Witness for C1: the drained controller takes the empty-tank path. -/
theorem fallback_returns_kd_min_witness :
    (drainedCtrl.tank_energy < drainedCtrl.tank_energy_threshold ∨
      (envOk.solve (assembleQP envOk movingInput drainedCtrl)).1 ≠ SUCCESSFUL_RETURN) ∧
    ((computeStiffness envOk movingInput drainedCtrl).1 =
        ![drainedCtrl.kd_min 0, drainedCtrl.kd_min 1, drainedCtrl.kd_min 2, 50, 50, 50] ∧
      (drainedCtrl.tank_energy < drainedCtrl.tank_energy_threshold →
        solverCalls (computeStiffness envOk movingInput drainedCtrl).2.log =
          solverCalls drainedCtrl.log ∧
        solverInputs (computeStiffness envOk movingInput drainedCtrl).2.log =
          solverInputs drainedCtrl.log)) :=
  ⟨Or.inl (by norm_num [drainedCtrl, restCtrl]),
   fallback_returns_kd_min envOk movingInput drainedCtrl
     (Or.inl (by norm_num [drainedCtrl, restCtrl]))⟩

theorem assembleQP_lb (env : Env) (inp : TickInput) (c : Ctrl) :
    (assembleQP env inp c).lb = [c.kd_min 0, c.kd_min 1, c.kd_min 2] := by
  simp only [assembleQP, constraintsQP, prologue]

theorem assembleQP_ub (env : Env) (inp : TickInput) (c : Ctrl) :
    (assembleQP env inp c).ub = [c.kd_max 0, c.kd_max 1, c.kd_max 2] := by
  simp only [assembleQP, constraintsQP, prologue]

/-- C2: when the tank is not empty and the solver reports success, the solver has been
called with `lb = kd_min` and `ub = kd_max`, its primal solution is copied unchanged into
the member `kd` and into the returned vector, and so, the solution respecting the bounds
it was given, `kd_min ≤ kd ≤ kd_max` holds componentwise for the stored and returned
stiffness. -/
theorem qp_success_kd_within_bounds (env : Env) (inp : TickInput) (c : Ctrl)
    (h : ¬ c.tank_energy < c.tank_energy_threshold)
    (hs : (env.solve (assembleQP env inp c)).1 = SUCCESSFUL_RETURN)
    (hbox : ∀ i : Fin 3,
      (assembleQP env inp c).lb.getD i 0 ≤ (env.solve (assembleQP env inp c)).2 i ∧
      (env.solve (assembleQP env inp c)).2 i ≤ (assembleQP env inp c).ub.getD i 0) :
    (assembleQP env inp c).lb = [c.kd_min 0, c.kd_min 1, c.kd_min 2] ∧
    (assembleQP env inp c).ub = [c.kd_max 0, c.kd_max 1, c.kd_max 2] ∧
    solverInputs (computeStiffness env inp c).2.log =
      solverInputs c.log ++ [assembleQP env inp c] ∧
    (∀ i : Fin 3,
      (computeStiffness env inp c).2.kd i = (env.solve (assembleQP env inp c)).2 i) ∧
    (computeStiffness env inp c).1 =
      ![(computeStiffness env inp c).2.kd 0, (computeStiffness env inp c).2.kd 1,
        (computeStiffness env inp c).2.kd 2, 50, 50, 50] ∧
    (computeStiffness env inp c).2.kd_min = c.kd_min ∧
    (computeStiffness env inp c).2.kd_max = c.kd_max ∧
    ∀ i : Fin 3,
      c.kd_min i ≤ (computeStiffness env inp c).2.kd i ∧
      (computeStiffness env inp c).2.kd i ≤ c.kd_max i := by
  have hkd : ∀ i : Fin 3,
      (computeStiffness env inp c).2.kd i = (env.solve (assembleQP env inp c)).2 i := by
    intro i
    rw [computeStiffness_success env inp c h hs]
    fin_cases i <;> simp [qpSuccess]
  have hmin := prologue_kd_min env inp c
  have hmax := prologue_kd_max env inp c
  have hlog := prologue_log env inp c
  refine ⟨assembleQP_lb env inp c, assembleQP_ub env inp c, ?_, hkd, ?_, ?_, ?_, ?_⟩
  · rw [computeStiffness_success env inp c h hs]
    simp [qpSuccess, hlog, solverInputs_append, solverInputs]
  · rw [computeStiffness_success env inp c h hs]
    simp only [qpSuccess]
    norm_num
  · rw [computeStiffness_success env inp c h hs]
    simpa [qpSuccess] using hmin
  · rw [computeStiffness_success env inp c h hs]
    simpa [qpSuccess] using hmax
  · intro i
    have hb := hbox i
    rw [assembleQP_lb, assembleQP_ub] at hb
    rw [hkd i]
    fin_cases i <;> simpa using hb

/-- Witness for C2: the controller at rest with a solver that succeeds at the lower
bounds. -/
theorem qp_success_kd_within_bounds_witness :
    (¬ restCtrl.tank_energy < restCtrl.tank_energy_threshold) ∧
    (envOk.solve (assembleQP envOk movingInput restCtrl)).1 = SUCCESSFUL_RETURN ∧
    ∀ i : Fin 3,
      restCtrl.kd_min i ≤ (computeStiffness envOk movingInput restCtrl).2.kd i ∧
      (computeStiffness envOk movingInput restCtrl).2.kd i ≤ restCtrl.kd_max i :=
  ⟨by norm_num [restCtrl], rfl,
   (qp_success_kd_within_bounds envOk movingInput restCtrl (by norm_num [restCtrl]) rfl
     (by
       intro i
       rw [assembleQP_lb, assembleQP_ub]
       fin_cases i <;> norm_num [envOk, solveAtLower, assembleQP_lb, restCtrl])).2.2.2.2.2.2.2⟩

/-! ### The function `update` -/

theorem update_coalesced (env : Env) (inp : TickInput) (c : Ctrl)
    (h : |inp.now - c.old_time| < coalesceWindow) :
    update env inp c = (ReturnType.OK, { c with current_time := inp.now }) := by
  simp [update, h]

/-- The state after a tick that is not coalesced, in terms of the state that
`computeStiffness` leaves behind. -/
theorem update_tick (env : Env) (inp : TickInput) (c : Ctrl)
    (h : ¬ |inp.now - c.old_time| < coalesceWindow) :
    update env inp c =
      (ReturnType.OK,
        { (computeStiffness env inp (atCall inp c)).2 with
          m_stiffness :=
            asDiagonal ![(computeStiffness env inp (atCall inp c)).1 0,
              (computeStiffness env inp (atCall inp c)).1 1,
              (computeStiffness env inp (atCall inp c)).1 2, inp.rot 0, inp.rot 1, inp.rot 2]
          m_damping := fun i j =>
            2.0 * 0.707 * env.sqrt
              (asDiagonal ![(computeStiffness env inp (atCall inp c)).1 0,
                (computeStiffness env inp (atCall inp c)).1 1,
                (computeStiffness env inp (atCall inp c)).1 2,
                inp.rot 0, inp.rot 1, inp.rot 2] i j)
          log :=
            (computeStiffness env inp (atCall inp c)).2.log ++
              List.replicate inp.iterations.toNat
                (Event.jointCmd
                  (asDiagonal ![(computeStiffness env inp (atCall inp c)).1 0,
                    (computeStiffness env inp (atCall inp c)).1 1,
                    (computeStiffness env inp (atCall inp c)).1 2,
                    inp.rot 0, inp.rot 1, inp.rot 2])
                  (fun i j =>
                    2.0 * 0.707 * env.sqrt
                      (asDiagonal ![(computeStiffness env inp (atCall inp c)).1 0,
                        (computeStiffness env inp (atCall inp c)).1 1,
                        (computeStiffness env inp (atCall inp c)).1 2,
                        inp.rot 0, inp.rot 1, inp.rot 2] i j))) ++
              [Event.write]
          old_time := (computeStiffness env inp (atCall inp c)).2.current_time
          x_d_old := ![inp.target 0, inp.target 1, inp.target 2] }) := by
  simp [update, h, atCall]

/-- The level to which the empty-tank branch pins the tank. -/
theorem computeStiffness_empty_tank_energy (env : Env) (inp : TickInput) (c : Ctrl)
    (h : c.tank_energy < c.tank_energy_threshold) :
    (computeStiffness env inp c).2.tank_energy =
      c.tank_energy_threshold +
        (if c.tank_energy ≥ 1.0 then 0.0 else 1.0) *
          quadForm ![-inp.v 0, -inp.v 1, -inp.v 2] (block33 c.m_damping)
            ![-inp.v 0, -inp.v 1, -inp.v 2] *
          (((c.current_time - c.old_time : Int) : ℚ) * 1e-9) := by
  rw [computeStiffness_empty env inp c h]
  rfl

/-- Counterexample for C3: with the clock reading one millisecond before the previous one
(admitted by the guard, which tests the absolute value) the empty-tank branch leaves the
tank at `0.4 + 14.14 · (-0.001) = 0.38586`, below the threshold `0.4`. -/
theorem empty_tank_backward_clock_below_threshold :
    ¬ |backwardInput.now - drainedCtrl.old_time| < coalesceWindow ∧
    (atCall backwardInput drainedCtrl).tank_energy <
      (atCall backwardInput drainedCtrl).tank_energy_threshold ∧
    (update envOk backwardInput drainedCtrl).2.tank_energy = 0.38586 ∧
    (update envOk backwardInput drainedCtrl).2.tank_energy_threshold = 0.4 ∧
    ¬ (update envOk backwardInput drainedCtrl).2.tank_energy ≥
      (update envOk backwardInput drainedCtrl).2.tank_energy_threshold := by
  have hg : ¬ |backwardInput.now - drainedCtrl.old_time| < coalesceWindow := by
    norm_num [backwardInput, drainedCtrl, restCtrl, coalesceWindow]
  have he : (atCall backwardInput drainedCtrl).tank_energy <
      (atCall backwardInput drainedCtrl).tank_energy_threshold := by
    norm_num [atCall, drainedCtrl, restCtrl]
  have ht : (update envOk backwardInput drainedCtrl).2.tank_energy = 0.38586 := by
    rw [update_tick _ _ _ hg]
    show (computeStiffness envOk backwardInput (atCall backwardInput drainedCtrl)).2.tank_energy
      = 0.38586
    rw [computeStiffness_empty_tank_energy _ _ _ he]
    norm_num [atCall, drainedCtrl, restCtrl, backwardInput, quadForm, block33, asDiagonal]
  have hth : (update envOk backwardInput drainedCtrl).2.tank_energy_threshold = 0.4 := by
    rw [update_tick _ _ _ hg]
    show (computeStiffness envOk backwardInput
      (atCall backwardInput drainedCtrl)).2.tank_energy_threshold = 0.4
    rw [computeStiffness_empty _ _ _ he]
    rfl
  refine ⟨hg, he, ht, hth, ?_⟩
  rw [ht, hth]
  norm_num

/-- A damping matrix built by the damping rule from a diagonal stiffness has a
non-negative quadratic form on its translational block. -/
theorem quadForm_damping_nonneg (sqrt : ℚ → ℚ) (hsqrt0 : sqrt 0 = 0)
    (hsqrt : ∀ x, 0 ≤ sqrt x) (k : Vec6) (u : Vec3) :
    0 ≤ quadForm u (block33 (fun i j => 2.0 * 0.707 * sqrt (asDiagonal k i j))) u := by
  have h0 := hsqrt (k 0)
  have h1 := hsqrt (k 1)
  have h2 := hsqrt (k 2)
  have e0 := mul_nonneg (mul_self_nonneg (u 0)) h0
  have e1 := mul_nonneg (mul_self_nonneg (u 1)) h1
  have e2 := mul_nonneg (mul_self_nonneg (u 2)) h2
  have hq : quadForm u (block33 (fun i j => 2.0 * 0.707 * sqrt (asDiagonal k i j))) u =
      (u 0 * (2.0 * 0.707 * sqrt (k 0)) + u 1 * (2.0 * 0.707 * sqrt 0) +
          u 2 * (2.0 * 0.707 * sqrt 0)) * u 0 +
        (u 0 * (2.0 * 0.707 * sqrt 0) + u 1 * (2.0 * 0.707 * sqrt (k 1)) +
          u 2 * (2.0 * 0.707 * sqrt 0)) * u 1 +
        (u 0 * (2.0 * 0.707 * sqrt 0) + u 1 * (2.0 * 0.707 * sqrt 0) +
          u 2 * (2.0 * 0.707 * sqrt (k 2))) * u 2 := rfl
  rw [hq, hsqrt0]
  norm_num
  nlinarith [e0, e1, e2]

/-- C3 (amended): after an empty-tank tick whose clock reading lies at least 100 µs after the
previous one, the tank is set to `tank_energy_threshold + energy_var_damping · Δt` with
`Δt = current_time − old_time` and `energy_var_damping = σ · vₑᵀ · D · vₑ`, `D` being the
damping block left by the previous tick's damping rule, and it is at least the
threshold. -/
theorem empty_tank_floor_forward_clock (env : Env) (inp : TickInput) (c : Ctrl)
    (hsqrt0 : env.sqrt 0 = 0) (hsqrt : ∀ x, 0 ≤ env.sqrt x)
    (hD : ∃ k : Vec6, c.m_damping = fun i j => 2.0 * 0.707 * env.sqrt (asDiagonal k i j))
    (hfwd : coalesceWindow ≤ inp.now - c.old_time)
    (hempty : c.tank_energy < c.tank_energy_threshold) :
    (update env inp c).2.tank_energy =
      c.tank_energy_threshold +
        (update env inp c).2.energy_var_damping * (update env inp c).2.m_deltaT ∧
    (update env inp c).2.m_deltaT = ((inp.now - c.old_time : Int) : ℚ) * 1e-9 ∧
    (update env inp c).2.energy_var_damping =
      (if c.tank_energy ≥ 1.0 then 0.0 else 1.0) *
        quadForm ![-inp.v 0, -inp.v 1, -inp.v 2] (block33 c.m_damping)
          ![-inp.v 0, -inp.v 1, -inp.v 2] ∧
    (update env inp c).2.tank_energy_threshold = c.tank_energy_threshold ∧
    (update env inp c).2.tank_energy ≥ (update env inp c).2.tank_energy_threshold := by
  have hw : (0 : Int) < coalesceWindow := by norm_num [coalesceWindow]
  have hg : ¬ |inp.now - c.old_time| < coalesceWindow := by
    rw [abs_of_nonneg (by omega)]
    omega
  have he : (atCall inp c).tank_energy < (atCall inp c).tank_energy_threshold := hempty
  have hu := update_tick env inp c hg
  have hcs := computeStiffness_empty env inp (atCall inp c) he
  have h1 : (update env inp c).2.tank_energy =
      c.tank_energy_threshold +
        (update env inp c).2.energy_var_damping * (update env inp c).2.m_deltaT := by
    rw [hu]
    show (computeStiffness env inp (atCall inp c)).2.tank_energy = _ +
      (computeStiffness env inp (atCall inp c)).2.energy_var_damping *
        (computeStiffness env inp (atCall inp c)).2.m_deltaT
    rw [hcs]
    rfl
  have h2 : (update env inp c).2.m_deltaT = ((inp.now - c.old_time : Int) : ℚ) * 1e-9 := by
    rw [hu]
    show (computeStiffness env inp (atCall inp c)).2.m_deltaT = _
    rw [hcs]
    rfl
  have h3 : (update env inp c).2.energy_var_damping =
      (if c.tank_energy ≥ 1.0 then 0.0 else 1.0) *
        quadForm ![-inp.v 0, -inp.v 1, -inp.v 2] (block33 c.m_damping)
          ![-inp.v 0, -inp.v 1, -inp.v 2] := by
    rw [hu]
    show (computeStiffness env inp (atCall inp c)).2.energy_var_damping = _
    rw [hcs]
    rfl
  have h4 : (update env inp c).2.tank_energy_threshold = c.tank_energy_threshold := by
    rw [hu]
    show (computeStiffness env inp (atCall inp c)).2.tank_energy_threshold = _
    rw [hcs]
    rfl
  refine ⟨h1, h2, h3, h4, ?_⟩
  rw [h4, h1, h3, h2]
  obtain ⟨k, hk⟩ := hD
  have hq := quadForm_damping_nonneg env.sqrt hsqrt0 hsqrt k ![-inp.v 0, -inp.v 1, -inp.v 2]
  rw [← hk] at hq
  have hs : (0 : ℚ) ≤ (if c.tank_energy ≥ 1.0 then (0.0 : ℚ) else 1.0) := by
    split_ifs <;> norm_num
  have hdt : (0 : ℚ) ≤ ((inp.now - c.old_time : Int) : ℚ) * 1e-9 := by
    have : (0 : ℚ) ≤ ((inp.now - c.old_time : Int) : ℚ) := by
      exact_mod_cast (by omega : (0 : Int) ≤ inp.now - c.old_time)
    positivity
  have := mul_nonneg (mul_nonneg hs hq) hdt
  linarith

theorem sqrtQ_zero : sqrtQ 0 = 0 := by
  norm_num [sqrtQ]

theorem sqrtQ_hundred : sqrtQ 100 = 10 := by
  norm_num [sqrtQ]

theorem sqrtQ_nonneg (x : ℚ) : 0 ≤ sqrtQ x := by
  unfold sqrtQ
  positivity

/-- Witness for C3 (amended): the drained controller, whose damping matrix is
`2·0.707·√100` on the diagonal, ticked one millisecond later. -/
theorem empty_tank_floor_forward_clock_witness :
    (coalesceWindow ≤ movingInput.now - drainedCtrl.old_time) ∧
    drainedCtrl.tank_energy < drainedCtrl.tank_energy_threshold ∧
    (update envOk movingInput drainedCtrl).2.tank_energy ≥
      (update envOk movingInput drainedCtrl).2.tank_energy_threshold :=
  ⟨by norm_num [coalesceWindow, movingInput, drainedCtrl, restCtrl],
   by norm_num [drainedCtrl, restCtrl],
   (empty_tank_floor_forward_clock envOk movingInput drainedCtrl sqrtQ_zero sqrtQ_nonneg
     ⟨fun _ => 100, by
       funext i j
       by_cases hij : i = j <;>
         norm_num [drainedCtrl, restCtrl, envOk, asDiagonal, hij, sqrtQ_zero, sqrtQ_hundred]⟩
     (by norm_num [coalesceWindow, movingInput, drainedCtrl, restCtrl])
     (by norm_num [drainedCtrl, restCtrl])).2.2.2.2⟩

/-! ### The function `on_activate` -/

/-- Counterexample for C4: after a successful `on_activate` the member `tank_energy`, which
the tick compares with the threshold, gates `m_sigma` with and reports, is `0.5` and not
`1.0`. -/
theorem on_activate_tank_energy_not_one :
    (on_activate true true 0 ![0, 0, 0.1] restCtrl).1 = CallbackReturn.SUCCESS ∧
    (on_activate true true 0 ![0, 0, 0.1] restCtrl).2.tank_energy = 0.5 ∧
    ¬ (on_activate true true 0 ![0, 0, 0.1] restCtrl).2.tank_energy = 1.0 := by
  refine ⟨rfl, ?_, ?_⟩ <;> norm_num [on_activate]

/-- C4 (amended): immediately after a successful `on_activate` the tank state `Xt` is `1.0`,
the tank level `tank_energy` that the tick compares with the threshold, gates `m_sigma`
with and reports in telemetry is `0.5 · Xt · Xt = 0.5`, and the threshold is `0.4`. -/
theorem on_activate_tank_levels (motion_ok force_ok : Bool) (now : Int) (frame_p : Vec3) (c : Ctrl)
    (h : (on_activate motion_ok force_ok now frame_p c).1 = CallbackReturn.SUCCESS) :
    (on_activate motion_ok force_ok now frame_p c).2.Xt = 1.0 ∧
    (on_activate motion_ok force_ok now frame_p c).2.tank_energy =
      0.5 * (on_activate motion_ok force_ok now frame_p c).2.Xt *
        (on_activate motion_ok force_ok now frame_p c).2.Xt ∧
    (on_activate motion_ok force_ok now frame_p c).2.tank_energy = 0.5 ∧
    (on_activate motion_ok force_ok now frame_p c).2.tank_energy_threshold = 0.4 := by
  cases motion_ok <;> cases force_ok <;> simp [on_activate] at h ⊢
  norm_num

/-- Witness for C4 (amended): activating the controller at rest. -/
theorem on_activate_tank_levels_witness :
    (on_activate true true 0 ![0, 0, 0.1] drainedCtrl).1 = CallbackReturn.SUCCESS ∧
    (on_activate true true 0 ![0, 0, 0.1] drainedCtrl).2.tank_energy = 0.5 ∧
    (on_activate true true 0 ![0, 0, 0.1] drainedCtrl).2.tank_energy_threshold = 0.4 :=
  ⟨rfl, (on_activate_tank_levels true true 0 ![0, 0, 0.1] drainedCtrl rfl).2.2.1,
    (on_activate_tank_levels true true 0 ![0, 0, 0.1] drainedCtrl rfl).2.2.2⟩

/-! ### Stiffness and damping matrices -/

theorem update_m_stiffness (env : Env) (inp : TickInput) (c : Ctrl)
    (h : ¬ |inp.now - c.old_time| < coalesceWindow) :
    (update env inp c).2.m_stiffness =
      asDiagonal ![(computeStiffness env inp (atCall inp c)).1 0,
        (computeStiffness env inp (atCall inp c)).1 1,
        (computeStiffness env inp (atCall inp c)).1 2, inp.rot 0, inp.rot 1, inp.rot 2] := by
  rw [update_tick env inp c h]

theorem update_m_damping (env : Env) (inp : TickInput) (c : Ctrl)
    (h : ¬ |inp.now - c.old_time| < coalesceWindow) (i j : Fin 6) :
    (update env inp c).2.m_damping i j =
      2.0 * 0.707 * env.sqrt ((update env inp c).2.m_stiffness i j) := by
  rw [update_tick env inp c h]

/-- C5: after every update that is not coalesced, whichever branch `computeStiffness` took,
`m_stiffness` is diagonal, its translational entries are the vector returned by
`computeStiffness`, its rotational entries are the parameters `stiffness.rot_x`, `rot_y`,
`rot_z`, and `m_damping` has `D_ii = 2·0.707·√K_ii` for all six `i` and is zero off the
diagonal (`√0 = 0`). -/
theorem update_stiffness_and_damping (env : Env) (inp : TickInput) (c : Ctrl)
    (h : ¬ |inp.now - c.old_time| < coalesceWindow) (hsqrt0 : env.sqrt 0 = 0) :
    (∀ i j : Fin 6, i ≠ j → (update env inp c).2.m_stiffness i j = 0) ∧
    (update env inp c).2.m_stiffness 0 0 = (computeStiffness env inp (atCall inp c)).1 0 ∧
    (update env inp c).2.m_stiffness 1 1 = (computeStiffness env inp (atCall inp c)).1 1 ∧
    (update env inp c).2.m_stiffness 2 2 = (computeStiffness env inp (atCall inp c)).1 2 ∧
    (update env inp c).2.m_stiffness 3 3 = inp.rot 0 ∧
    (update env inp c).2.m_stiffness 4 4 = inp.rot 1 ∧
    (update env inp c).2.m_stiffness 5 5 = inp.rot 2 ∧
    (∀ i : Fin 6, (update env inp c).2.m_damping i i =
      2 * 0.707 * env.sqrt ((update env inp c).2.m_stiffness i i)) ∧
    (∀ i j : Fin 6, i ≠ j → (update env inp c).2.m_damping i j = 0) := by
  have hK := update_m_stiffness env inp c h
  have hoff : ∀ i j : Fin 6, i ≠ j → (update env inp c).2.m_stiffness i j = 0 := by
    intro i j hij
    rw [hK]
    simp [asDiagonal, hij]
  refine ⟨hoff, ?_, ?_, ?_, ?_, ?_, ?_, ?_, ?_⟩
  · rw [hK]; rfl
  · rw [hK]; rfl
  · rw [hK]; rfl
  · rw [hK]; rfl
  · rw [hK]; rfl
  · rw [hK]; rfl
  · intro i
    rw [update_m_damping env inp c h]
    norm_num
  · intro i j hij
    rw [update_m_damping env inp c h, hoff i j hij, hsqrt0]
    norm_num

/-- Witness for C5: the controller at rest ticked one millisecond later. -/
theorem update_stiffness_and_damping_witness :
    (¬ |movingInput.now - restCtrl.old_time| < coalesceWindow) ∧ envOk.sqrt 0 = 0 ∧
    (update envOk movingInput restCtrl).2.m_stiffness 3 3 = movingInput.rot 0 ∧
    (∀ i : Fin 6, (update envOk movingInput restCtrl).2.m_damping i i =
      2 * 0.707 * envOk.sqrt ((update envOk movingInput restCtrl).2.m_stiffness i i)) :=
  ⟨by norm_num [movingInput, restCtrl, coalesceWindow], sqrtQ_zero,
   (update_stiffness_and_damping envOk movingInput restCtrl
     (by norm_num [movingInput, restCtrl, coalesceWindow]) sqrtQ_zero).2.2.2.2.1,
   (update_stiffness_and_damping envOk movingInput restCtrl
     (by norm_num [movingInput, restCtrl, coalesceWindow]) sqrtQ_zero).2.2.2.2.2.2.2.1⟩

/-! ### Telemetry -/

theorem published_append (xs ys : List Event) :
    published (xs ++ ys) = published xs ++ published ys := by
  induction xs with
  | nil => simp [published]
  | cons e es ih => cases e <;> simp [published, ih]

theorem published_replicate_jointCmd (n : Nat) (K D : Mat6) :
    published (List.replicate n (Event.jointCmd K D)) = [] := by
  induction n with
  | zero => rfl
  | succ n ih => simpa [List.replicate, published] using ih

/-- The three ways through `computeStiffness`. -/
theorem computeStiffness_cases (env : Env) (inp : TickInput) (c : Ctrl) :
    (c.tank_energy < c.tank_energy_threshold ∧
      computeStiffness env inp c =
        emptyTank env (prologue env inp c).1 (prologue env inp c).2) ∨
    (¬ c.tank_energy < c.tank_energy_threshold ∧
      (env.solve (assembleQP env inp c)).1 ≠ SUCCESSFUL_RETURN ∧
      computeStiffness env inp c =
        qpFailure env (prologue env inp c).1
          { (prologue env inp c).2 with
            log := (prologue env inp c).2.log ++ [Event.solve (assembleQP env inp c)] }) ∨
    (¬ c.tank_energy < c.tank_energy_threshold ∧
      (env.solve (assembleQP env inp c)).1 = SUCCESSFUL_RETURN ∧
      computeStiffness env inp c =
        qpSuccess env (prologue env inp c).1 (env.solve (assembleQP env inp c)).2
          { (prologue env inp c).2 with
            log := (prologue env inp c).2.log ++ [Event.solve (assembleQP env inp c)] }) := by
  by_cases h : c.tank_energy < c.tank_energy_threshold
  · exact Or.inl ⟨h, computeStiffness_empty env inp c h⟩
  · by_cases hs : (env.solve (assembleQP env inp c)).1 = SUCCESSFUL_RETURN
    · exact Or.inr (Or.inr ⟨h, hs, computeStiffness_success env inp c h hs⟩)
    · exact Or.inr (Or.inl ⟨h, hs, computeStiffness_failure env inp c h hs⟩)

/-- In every branch `computeStiffness` publishes exactly one record: the source's
initializer list evaluated in the state the function leaves behind. -/
theorem computeStiffness_published (env : Env) (inp : TickInput) (c : Ctrl) :
    published (computeStiffness env inp c).2.log =
      published c.log ++
        [m_data env (prologue env inp c).1 (computeStiffness env inp c).2] := by
  rcases computeStiffness_cases env inp c with ⟨_, h⟩ | ⟨_, _, h⟩ | ⟨_, _, h⟩
  · rw [h]
    simp [emptyTank, published_append, published, prologue_log, m_data]
  · rw [h]
    simp [qpFailure, published_append, published, prologue_log, m_data]
  · rw [h]
    simp [qpSuccess, published_append, published, prologue_log, m_data]

theorem update_published (env : Env) (inp : TickInput) (c : Ctrl)
    (h : ¬ |inp.now - c.old_time| < coalesceWindow) :
    published (update env inp c).2.log =
      published c.log ++
        [m_data env (prologue env inp (atCall inp c)).1
          (computeStiffness env inp (atCall inp c)).2] := by
  rw [update_tick env inp c h]
  simp [published_append, published_replicate_jointCmd, published,
    computeStiffness_published, atCall]

/-- The source's initializer list, evaluated where it is published, is the record of the
specification for the tick. -/
theorem m_data_eq_tickRecord (env : Env) (inp : TickInput) (c : Ctrl)
    (h : ¬ |inp.now - c.old_time| < coalesceWindow) :
    m_data env (prologue env inp (atCall inp c)).1 (computeStiffness env inp (atCall inp c)).2 =
      (tickRecord env inp c (update env inp c).2).toList := by
  rcases computeStiffness_cases env inp (atCall inp c) with ⟨_, hb⟩ | ⟨_, _, hb⟩ | ⟨_, _, hb⟩
  · rw [update_tick env inp c h, hb]
    rfl
  · rw [update_tick env inp c h, hb]
    rfl
  · rw [update_tick env inp c h, hb]
    rfl

/-- C6: every tick that is not coalesced publishes exactly one telemetry record, whichever
branch `computeStiffness` takes, and the record has 31 scalars in the fixed order time,
p (3), x_d (3), F_ext, raw F/T force (3), F_ref_z, tank, tank_dot, kd (3), kd_max_z,
kd_min_z, penetration, kₛ, dₛ, F_min_z, Hunt-Crossley force, max_pen, T_min, power_limit,
v (3), surf_vel. -/
theorem update_publishes_one_record (env : Env) (inp : TickInput) (c : Ctrl)
    (h : ¬ |inp.now - c.old_time| < coalesceWindow) :
    published (update env inp c).2.log =
      published c.log ++ [(tickRecord env inp c (update env inp c).2).toList] ∧
    (tickRecord env inp c (update env inp c).2).toList.length = 31 := by
  refine ⟨?_, rfl⟩
  rw [update_published env inp c h, m_data_eq_tickRecord env inp c h]

/-- Witness for C6: the drained controller (empty-tank branch) ticked one millisecond
later. -/
theorem update_publishes_one_record_witness :
    (¬ |movingInput.now - drainedCtrl.old_time| < coalesceWindow) ∧
    published (update envOk movingInput drainedCtrl).2.log =
      published drainedCtrl.log ++
        [(tickRecord envOk movingInput drainedCtrl
          (update envOk movingInput drainedCtrl).2).toList] :=
  ⟨by norm_num [movingInput, drainedCtrl, restCtrl, coalesceWindow],
   (update_publishes_one_record envOk movingInput drainedCtrl
     (by norm_num [movingInput, drainedCtrl, restCtrl, coalesceWindow])).1⟩

theorem jointCmdGains_append (xs ys : List Event) :
    jointCmdGains (xs ++ ys) = jointCmdGains xs ++ jointCmdGains ys := by
  induction xs with
  | nil => simp [jointCmdGains]
  | cons e es ih => cases e <;> simp [jointCmdGains, ih]

theorem jointCmdGains_replicate (n : Nat) (K D : Mat6) :
    jointCmdGains (List.replicate n (Event.jointCmd K D)) = List.replicate n (K, D) := by
  induction n with
  | zero => rfl
  | succ n ih => simp [List.replicate, jointCmdGains, ih]

/-- No branch of `computeStiffness` runs a joint-command pass. -/
theorem computeStiffness_jointCmdGains (env : Env) (inp : TickInput) (c : Ctrl) :
    jointCmdGains (computeStiffness env inp c).2.log = jointCmdGains c.log := by
  rcases computeStiffness_cases env inp c with ⟨_, h⟩ | ⟨_, _, h⟩ | ⟨_, _, h⟩
  · rw [h]
    simp [emptyTank, jointCmdGains_append, jointCmdGains, prologue_log]
  · rw [h]
    simp [qpFailure, jointCmdGains_append, jointCmdGains, prologue_log]
  · rw [h]
    simp [qpSuccess, jointCmdGains_append, jointCmdGains, prologue_log]

/-- The joint-command passes of a tick use the matrices the tick has just stored. -/
theorem update_jointCmdGains (env : Env) (inp : TickInput) (c : Ctrl)
    (h : ¬ |inp.now - c.old_time| < coalesceWindow) :
    jointCmdGains (update env inp c).2.log =
      jointCmdGains c.log ++
        List.replicate inp.iterations.toNat
          ((update env inp c).2.m_stiffness, (update env inp c).2.m_damping) := by
  rw [update_tick env inp c h]
  simp [jointCmdGains_append, jointCmdGains_replicate, jointCmdGains,
    computeStiffness_jointCmdGains, atCall]

/-- The member `kd` after a tick: the solver's solution on success, the cached value on
both fallback paths. -/
theorem update_kd (env : Env) (inp : TickInput) (c : Ctrl)
    (h : ¬ |inp.now - c.old_time| < coalesceWindow) :
    ((¬ c.tank_energy < c.tank_energy_threshold ∧
        (env.solve (assembleQP env inp (atCall inp c))).1 = SUCCESSFUL_RETURN) →
      (update env inp c).2.kd =
        ![(computeStiffness env inp (atCall inp c)).1 0,
          (computeStiffness env inp (atCall inp c)).1 1,
          (computeStiffness env inp (atCall inp c)).1 2]) ∧
    ((c.tank_energy < c.tank_energy_threshold ∨
        (env.solve (assembleQP env inp (atCall inp c))).1 ≠ SUCCESSFUL_RETURN) →
      (update env inp c).2.kd = c.kd) := by
  rcases computeStiffness_cases env inp (atCall inp c) with ⟨he, hb⟩ | ⟨he, hs, hb⟩ | ⟨he, hs, hb⟩
  · refine ⟨fun hh => absurd he hh.1, fun _ => ?_⟩
    rw [update_tick env inp c h, hb]
    rfl
  · refine ⟨fun hh => absurd hh.2 hs, fun _ => ?_⟩
    rw [update_tick env inp c h, hb]
    rfl
  · refine ⟨fun _ => ?_, fun hh => ?_⟩
    · rw [update_tick env inp c h, hb]
      rfl
    · rcases hh with hh | hh
      · exact absurd hh he
      · exact absurd hs hh

/-- The `Kd` entries of the array published by a tick are the member `kd` as the tick
leaves it. -/
theorem update_published_kdFields (env : Env) (inp : TickInput) (c : Ctrl)
    (h : ¬ |inp.now - c.old_time| < coalesceWindow) :
    (published (update env inp c).2.log).map kdFields =
      (published c.log).map kdFields ++
        [[(update env inp c).2.kd 0, (update env inp c).2.kd 1, (update env inp c).2.kd 2]] := by
  rw [update_published env inp c h, m_data_eq_tickRecord env inp c h, List.map_append]
  rfl

/-- The vector `computeStiffness` returns on the fallback paths. -/
theorem computeStiffness_fallback_fst (env : Env) (inp : TickInput) (c : Ctrl)
    (h : c.tank_energy < c.tank_energy_threshold ∨
      (env.solve (assembleQP env inp c)).1 ≠ SUCCESSFUL_RETURN) :
    (computeStiffness env inp c).1 = ![c.kd_min 0, c.kd_min 1, c.kd_min 2, 50.0, 50.0, 50.0] := by
  rcases computeStiffness_cases env inp c with ⟨_, hb⟩ | ⟨_, _, hb⟩ | ⟨he, hs, _⟩
  · rw [hb]; rfl
  · rw [hb]; rfl
  · rcases h with h | h
    · exact absurd h he
    · exact absurd hs h

/-- Counterexample for C7: on an empty-tank tick (tank `0.3`, threshold `0.4`, cached
`kd = 300`, `kd_min = 100`) the published `Kd` fields are `300, 300, 300` while the tick
returns and applies the translational stiffness `100, 100, 100`. -/
theorem fallback_telemetry_kd_is_cached :
    (¬ |restInput.now - drainedCtrl.old_time| < coalesceWindow) ∧
    (published (update envOk restInput drainedCtrl).2.log).map kdFields = [[300, 300, 300]] ∧
    (computeStiffness envOk restInput (atCall restInput drainedCtrl)).1 0 = 100 ∧
    (computeStiffness envOk restInput (atCall restInput drainedCtrl)).1 1 = 100 ∧
    (computeStiffness envOk restInput (atCall restInput drainedCtrl)).1 2 = 100 ∧
    (update envOk restInput drainedCtrl).2.m_stiffness 0 0 = 100 ∧
    (update envOk restInput drainedCtrl).2.m_stiffness 1 1 = 100 ∧
    (update envOk restInput drainedCtrl).2.m_stiffness 2 2 = 100 := by
  have hg : ¬ |restInput.now - drainedCtrl.old_time| < coalesceWindow := by
    norm_num [restInput, drainedCtrl, restCtrl, coalesceWindow]
  have he : (atCall restInput drainedCtrl).tank_energy <
      (atCall restInput drainedCtrl).tank_energy_threshold := by
    norm_num [atCall, drainedCtrl, restCtrl]
  have hkd := (update_kd envOk restInput drainedCtrl hg).2 (Or.inl he)
  have hret := computeStiffness_fallback_fst envOk restInput (atCall restInput drainedCtrl)
    (Or.inl he)
  have hK := update_m_stiffness envOk restInput drainedCtrl hg
  refine ⟨hg, ?_, ?_, ?_, ?_, ?_, ?_, ?_⟩
  · rw [update_published_kdFields envOk restInput drainedCtrl hg, hkd]
    rfl
  · rw [hret]; rfl
  · rw [hret]; rfl
  · rw [hret]; rfl
  · rw [hK, hret]; rfl
  · rw [hK, hret]; rfl
  · rw [hK, hret]; rfl

/-- C7 (amended): on every tick that is not coalesced the `Kd_x, Kd_y, Kd_z` fields of the
published record are the member `kd` as the tick leaves it, and the joint-command passes
use the stiffness matrix whose translational diagonal is the vector `computeStiffness`
returns.  On a tick where the solver succeeds the two agree.  On both fallback ticks the
returned and applied translational stiffness is `kd_min`, while the `Kd` fields are the
cached `kd`, which the fallback leaves unchanged. -/
theorem telemetry_kd_fields (env : Env) (inp : TickInput) (c : Ctrl)
    (h : ¬ |inp.now - c.old_time| < coalesceWindow) :
    (published (update env inp c).2.log).map kdFields =
      (published c.log).map kdFields ++
        [[(update env inp c).2.kd 0, (update env inp c).2.kd 1, (update env inp c).2.kd 2]] ∧
    jointCmdGains (update env inp c).2.log =
      jointCmdGains c.log ++
        List.replicate inp.iterations.toNat
          ((update env inp c).2.m_stiffness, (update env inp c).2.m_damping) ∧
    (update env inp c).2.m_stiffness 0 0 = (computeStiffness env inp (atCall inp c)).1 0 ∧
    (update env inp c).2.m_stiffness 1 1 = (computeStiffness env inp (atCall inp c)).1 1 ∧
    (update env inp c).2.m_stiffness 2 2 = (computeStiffness env inp (atCall inp c)).1 2 ∧
    ((¬ c.tank_energy < c.tank_energy_threshold ∧
        (env.solve (assembleQP env inp (atCall inp c))).1 = SUCCESSFUL_RETURN) →
      (update env inp c).2.kd 0 = (computeStiffness env inp (atCall inp c)).1 0 ∧
      (update env inp c).2.kd 1 = (computeStiffness env inp (atCall inp c)).1 1 ∧
      (update env inp c).2.kd 2 = (computeStiffness env inp (atCall inp c)).1 2) ∧
    ((c.tank_energy < c.tank_energy_threshold ∨
        (env.solve (assembleQP env inp (atCall inp c))).1 ≠ SUCCESSFUL_RETURN) →
      (update env inp c).2.kd = c.kd ∧
      (computeStiffness env inp (atCall inp c)).1 0 = c.kd_min 0 ∧
      (computeStiffness env inp (atCall inp c)).1 1 = c.kd_min 1 ∧
      (computeStiffness env inp (atCall inp c)).1 2 = c.kd_min 2) := by
  have hK := update_m_stiffness env inp c h
  refine ⟨update_published_kdFields env inp c h, update_jointCmdGains env inp c h,
    ?_, ?_, ?_, ?_, ?_⟩
  · rw [hK]; rfl
  · rw [hK]; rfl
  · rw [hK]; rfl
  · intro hs
    rw [(update_kd env inp c h).1 hs]
    exact ⟨rfl, rfl, rfl⟩
  · intro hf
    have hret := computeStiffness_fallback_fst env inp (atCall inp c) hf
    refine ⟨(update_kd env inp c h).2 hf, ?_, ?_, ?_⟩
    · rw [hret]; rfl
    · rw [hret]; rfl
    · rw [hret]; rfl

/-- Witness for C7 (amended): the controller at rest, tank at `0.5`, with a solver that
succeeds. -/
theorem telemetry_kd_fields_witness :
    (¬ |movingInput.now - restCtrl.old_time| < coalesceWindow) ∧
    (published (update envOk movingInput restCtrl).2.log).map kdFields =
      (published restCtrl.log).map kdFields ++
        [[(update envOk movingInput restCtrl).2.kd 0, (update envOk movingInput restCtrl).2.kd 1,
          (update envOk movingInput restCtrl).2.kd 2]] :=
  ⟨by norm_num [movingInput, restCtrl, coalesceWindow],
   (telemetry_kd_fields envOk movingInput restCtrl
     (by norm_num [movingInput, restCtrl, coalesceWindow])).1⟩

/-! ### Coalesced ticks -/

/-- C8: when the clock reading is less than 100 µs away from `old_time`, `update` returns
`OK`, makes no collaborator call (no solver call, no telemetry, no joint-command pass, no
joint-command write) and changes nothing but the member `current_time`: the tank level,
`old_time`, `x_d_old`, `old_z`, the surface-velocity ring and its sum, the cached `kd` and
the stiffness and damping matrices are the same as before. -/
theorem update_coalesced_no_effect (env : Env) (inp : TickInput) (c : Ctrl)
    (h : |inp.now - c.old_time| < coalesceWindow) :
    (update env inp c).1 = ReturnType.OK ∧
    (update env inp c).2 = { c with current_time := inp.now } ∧
    (update env inp c).2.log = c.log ∧
    solverCalls (update env inp c).2.log = solverCalls c.log ∧
    published (update env inp c).2.log = published c.log ∧
    jointCmdGains (update env inp c).2.log = jointCmdGains c.log ∧
    jointWrites (update env inp c).2.log = jointWrites c.log ∧
    (update env inp c).2.tank_energy = c.tank_energy ∧
    (update env inp c).2.old_time = c.old_time ∧
    (update env inp c).2.x_d_old = c.x_d_old ∧
    (update env inp c).2.old_z = c.old_z ∧
    (update env inp c).2.m_surf_vel = c.m_surf_vel ∧
    (update env inp c).2.m_surf_vel_sum = c.m_surf_vel_sum ∧
    (update env inp c).2.kd = c.kd ∧
    (update env inp c).2.stiffness = c.stiffness ∧
    (update env inp c).2.m_stiffness = c.m_stiffness ∧
    (update env inp c).2.m_damping = c.m_damping := by
  rw [update_coalesced env inp c h]
  exact ⟨rfl, rfl, rfl, rfl, rfl, rfl, rfl, rfl, rfl, rfl, rfl, rfl, rfl, rfl, rfl, rfl, rfl⟩

/-- Witness for C8: a second call 50 µs after the previous tick. -/
theorem update_coalesced_no_effect_witness :
    |soonInput.now - restCtrl.old_time| < coalesceWindow ∧
    (update envOk soonInput restCtrl).1 = ReturnType.OK ∧
    (update envOk soonInput restCtrl).2.log = restCtrl.log ∧
    (update envOk soonInput restCtrl).2.tank_energy =
      restCtrl.tank_energy :=
  ⟨by norm_num [restInput, soonInput, restCtrl, coalesceWindow],
   (update_coalesced_no_effect envOk soonInput restCtrl
     (by norm_num [restInput, soonInput, restCtrl, coalesceWindow])).1,
   (update_coalesced_no_effect envOk soonInput restCtrl
     (by norm_num [restInput, soonInput, restCtrl, coalesceWindow])).2.2.1,
   (update_coalesced_no_effect envOk soonInput restCtrl
     (by norm_num [restInput, soonInput, restCtrl, coalesceWindow])).2.2.2.2.2.2.2.1⟩

/-! ### Tank at rest -/

/-- C9: on a tick with end-effector velocity `v = 0` and position error `x_d − p = 0`, the
tank not being empty and the solver reporting success, `energy_var_damping` and
`energy_var_stiff` are zero and the tank level after the tick equals the level before it,
whatever the step length and the solution returned by the solver. -/
theorem tank_unchanged_at_rest (env : Env) (inp : TickInput) (c : Ctrl)
    (h : ¬ |inp.now - c.old_time| < coalesceWindow)
    (hv : ∀ i, inp.v i = 0) (he : ∀ i, inp.target i - inp.p i = 0)
    (hne : ¬ c.tank_energy < c.tank_energy_threshold)
    (hs : (env.solve (assembleQP env inp (atCall inp c))).1 = SUCCESSFUL_RETURN) :
    (update env inp c).2.energy_var_damping = 0 ∧
    (update env inp c).2.energy_var_stiff = 0 ∧
    (update env inp c).2.tank_energy = c.tank_energy := by
  have hb := computeStiffness_success env inp (atCall inp c) hne hs
  rw [update_tick env inp c h, hb]
  simp [qpSuccess, prologue, diagForm, quadForm, hv, he, atCall]

/-- Witness for C9: the controller at rest on its target, with a solver that succeeds. -/
theorem tank_unchanged_at_rest_witness :
    (¬ |restInput.now - restCtrl.old_time| < coalesceWindow) ∧
    (∀ i, restInput.v i = 0) ∧ (∀ i, restInput.target i - restInput.p i = 0) ∧
    (¬ restCtrl.tank_energy < restCtrl.tank_energy_threshold) ∧
    (envOk.solve (assembleQP envOk restInput (atCall restInput restCtrl))).1 =
      SUCCESSFUL_RETURN ∧
    (update envOk restInput restCtrl).2.tank_energy = restCtrl.tank_energy :=
  ⟨by norm_num [restInput, soonInput, restCtrl, coalesceWindow],
   by intro i; fin_cases i <;> simp [restInput],
   by intro i; fin_cases i <;> simp [restInput],
   by norm_num [restCtrl], rfl,
   (tank_unchanged_at_rest envOk restInput restCtrl
     (by norm_num [restInput, soonInput, restCtrl, coalesceWindow])
     (by intro i; fin_cases i <;> simp [restInput])
     (by intro i; fin_cases i <;> simp [restInput])
     (by norm_num [restCtrl]) rfl).2.2⟩

/-! ### The quadratic program -/

/-- A tick that reaches the solver hands it the assembled data, once. -/
theorem update_solverInputs (env : Env) (inp : TickInput) (c : Ctrl)
    (h : ¬ |inp.now - c.old_time| < coalesceWindow)
    (hne : ¬ c.tank_energy < c.tank_energy_threshold) :
    solverInputs (update env inp c).2.log =
      solverInputs c.log ++ [assembleQP env inp (atCall inp c)] := by
  have hrep : ∀ (n : Nat) (K D : Mat6),
      solverInputs (List.replicate n (Event.jointCmd K D)) = [] := by
    intro n K D
    induction n with
    | zero => rfl
    | succ n ih => simpa [List.replicate, solverInputs] using ih
  rw [update_tick env inp c h]
  rcases computeStiffness_cases env inp (atCall inp c) with ⟨he, _⟩ | ⟨_, _, hb⟩ | ⟨_, _, hb⟩
  · exact absurd he hne
  · rw [hb]
    simp [qpFailure, solverInputs_append, solverInputs, hrep, prologue_log, atCall]
  · rw [hb]
    simp [qpSuccess, solverInputs_append, solverInputs, hrep, prologue_log, atCall]

/-- C10: on every tick that reaches the solver, the data passed to it are, with
`e = x_d − p`, `vₑ = −v` and `D` the damping matrix left by the previous tick: `H` the 3×3
diagonal matrix with `H_ii = R_i + Q_i·e_i²`; `g_i = −kd_min,i·R_i + (−F_ref,i +
D_ii·vₑ,i)·e_i·Q_i`; `lb = kd_min`, `ub = kd_max`; `A`, row-major 5×3, with rows 1-3 equal
to `diag(e)` and rows 4 and 5 both `(e_x·vₑ,x, e_y·vₑ,y, e_z·vₑ,z)`; `lbA_i = F_min,i −
D_ii·vₑ,i`, `ubA_i = F_max,i − D_ii·vₑ,i` for `i = 1..3`; `lbA_4 = −energy_var_damping +
eᵀ·diag(kd_min)·vₑ + (T_min − Xₜ)/Δt`; `lbA_5 = −energy_var_damping + eᵀ·diag(kd_min)·vₑ −
power_limit`; `ubA_4 = ubA_5 = 1e9`. -/
theorem solver_data (env : Env) (inp : TickInput) (c : Ctrl)
    (h : ¬ |inp.now - c.old_time| < coalesceWindow)
    (hne : ¬ c.tank_energy < c.tank_energy_threshold) :
    solverInputs (update env inp c).2.log =
      solverInputs c.log ++ [assembleQP env inp (atCall inp c)] ∧
    (assembleQP env inp (atCall inp c)).H.length = 9 ∧
    (∀ i j : Fin 3, (assembleQP env inp (atCall inp c)).H.get? (3 * i.val + j.val) =
      some (if i = j then c.R i + c.Q i * posError inp i ^ 2 else 0)) ∧
    (assembleQP env inp (atCall inp c)).g.length = 3 ∧
    (∀ i : Fin 3, (assembleQP env inp (atCall inp c)).g.get? i.val =
      some (-c.kd_min i * c.R i +
        (-(prologue env inp (atCall inp c)).1.F_ref i + diag3 c.m_damping i * velError inp i) *
          posError inp i * c.Q i)) ∧
    (assembleQP env inp (atCall inp c)).lb = [c.kd_min 0, c.kd_min 1, c.kd_min 2] ∧
    (assembleQP env inp (atCall inp c)).ub = [c.kd_max 0, c.kd_max 1, c.kd_max 2] ∧
    (assembleQP env inp (atCall inp c)).A.length = 15 ∧
    (∀ i j : Fin 3, (assembleQP env inp (atCall inp c)).A.get? (3 * i.val + j.val) =
      some (if i = j then posError inp i else 0)) ∧
    (∀ j : Fin 3, (assembleQP env inp (atCall inp c)).A.get? (9 + j.val) =
      some (posError inp j * velError inp j)) ∧
    (∀ j : Fin 3, (assembleQP env inp (atCall inp c)).A.get? (12 + j.val) =
      some (posError inp j * velError inp j)) ∧
    (assembleQP env inp (atCall inp c)).lbA =
      [(prologue env inp (atCall inp c)).2.F_min 0 - diag3 c.m_damping 0 * velError inp 0,
       (prologue env inp (atCall inp c)).2.F_min 1 - diag3 c.m_damping 1 * velError inp 1,
       (prologue env inp (atCall inp c)).2.F_min 2 - diag3 c.m_damping 2 * velError inp 2,
       -(prologue env inp (atCall inp c)).2.energy_var_damping +
         diagForm (posError inp) c.kd_min (velError inp) +
         (c.tank_energy_threshold - c.tank_energy) / stepLength inp c,
       -(prologue env inp (atCall inp c)).2.energy_var_damping +
         diagForm (posError inp) c.kd_min (velError inp) - 0.1] ∧
    (assembleQP env inp (atCall inp c)).ubA =
      [c.F_max 0 - diag3 c.m_damping 0 * velError inp 0,
       c.F_max 1 - diag3 c.m_damping 1 * velError inp 1,
       c.F_max 2 - diag3 c.m_damping 2 * velError inp 2, 1e9, 1e9] ∧
    (prologue env inp (atCall inp c)).2.energy_var_damping =
      (if c.tank_energy ≥ 1.0 then 0.0 else 1.0) *
        quadForm (velError inp) (block33 c.m_damping) (velError inp) := by
  refine ⟨update_solverInputs env inp c h hne, rfl, ?_, rfl, ?_, rfl, rfl, rfl, ?_, ?_, ?_,
    rfl, rfl, rfl⟩
  · intro i j
    fin_cases i <;> fin_cases j <;> rfl
  · intro i
    fin_cases i <;> rfl
  · intro i j
    fin_cases i <;> fin_cases j <;> rfl
  · intro j
    fin_cases j <;> rfl
  · intro j
    fin_cases j <;> rfl

/-- Witness for C10: the controller at rest, tank at `0.5`, ticked one millisecond later
while moving. -/
theorem solver_data_witness :
    (¬ |movingInput.now - restCtrl.old_time| < coalesceWindow) ∧
    (¬ restCtrl.tank_energy < restCtrl.tank_energy_threshold) ∧
    solverInputs (update envOk movingInput restCtrl).2.log =
      solverInputs restCtrl.log ++ [assembleQP envOk movingInput (atCall movingInput restCtrl)] ∧
    (assembleQP envOk movingInput (atCall movingInput restCtrl)).ubA =
      [restCtrl.F_max 0 - diag3 restCtrl.m_damping 0 * velError movingInput 0,
       restCtrl.F_max 1 - diag3 restCtrl.m_damping 1 * velError movingInput 1,
       restCtrl.F_max 2 - diag3 restCtrl.m_damping 2 * velError movingInput 2, 1e9, 1e9] :=
  ⟨by norm_num [movingInput, restCtrl, coalesceWindow], by norm_num [restCtrl],
   (solver_data envOk movingInput restCtrl
     (by norm_num [movingInput, restCtrl, coalesceWindow]) (by norm_num [restCtrl])).1,
   (solver_data envOk movingInput restCtrl
     (by norm_num [movingInput, restCtrl, coalesceWindow])
     (by norm_num [restCtrl])).2.2.2.2.2.2.2.2.2.2.2.2.1⟩

/-! ### Reference force -/

/-- The member `F_min` after a tick is the one set by the reference-force branch. -/
theorem update_F_min (env : Env) (inp : TickInput) (c : Ctrl)
    (h : ¬ |inp.now - c.old_time| < coalesceWindow) :
    (update env inp c).2.F_min =
      ![c.F_min 0, c.F_min 1, if c.m_ft_sensor_wrench 2 < -0.5 then -9 else -c.F_max 2] := by
  rcases computeStiffness_cases env inp (atCall inp c) with ⟨_, hb⟩ | ⟨_, _, hb⟩ | ⟨_, _, hb⟩
  · rw [update_tick env inp c h, hb]
    rfl
  · rw [update_tick env inp c h, hb]
    rfl
  · rw [update_tick env inp c h, hb]
    rfl

/-- C11: on every tick the reference-force generator decides contact by the strict test
`Fz_meas < −0.5`.  In contact it sets `F_ref_z = −(kₛ·max_pen^1.35 − dₛ·max_pen^1.35·(vz −
vs))` with `max_pen = 0.008` and `F_min_z = −9`; otherwise, also at `Fz_meas = −0.5`, it
sets `F_ref_z = 0` and `F_min_z = −F_max_z`.  The `x` and `y` components of `F_ref` are
`0` in both cases. -/
theorem reference_force (env : Env) (inp : TickInput) (c : Ctrl)
    (h : ¬ |inp.now - c.old_time| < coalesceWindow) :
    (c.m_ft_sensor_wrench 2 < -0.5 →
      (prologue env inp (atCall inp c)).1.F_ref 2 =
        -((prologue env inp (atCall inp c)).1.stiffness_value * env.pow 0.008 1.35 -
          (prologue env inp (atCall inp c)).1.damping_value * env.pow 0.008 1.35 *
            (inp.v 2 - (prologue env inp (atCall inp c)).1.surf_vel)) ∧
      (update env inp c).2.F_min 2 = -9) ∧
    (¬ c.m_ft_sensor_wrench 2 < -0.5 →
      (prologue env inp (atCall inp c)).1.F_ref 2 = 0 ∧
      (update env inp c).2.F_min 2 = -c.F_max 2) ∧
    (c.m_ft_sensor_wrench 2 = -0.5 →
      (prologue env inp (atCall inp c)).1.F_ref 2 = 0 ∧
      (update env inp c).2.F_min 2 = -c.F_max 2) ∧
    (prologue env inp (atCall inp c)).1.F_ref 0 = 0 ∧
    (prologue env inp (atCall inp c)).1.F_ref 1 = 0 ∧
    (prologue env inp (atCall inp c)).1.max_pen = 0.008 := by
  have hF := update_F_min env inp c h
  have hz : (prologue env inp (atCall inp c)).1.F_ref 2 =
      if c.m_ft_sensor_wrench 2 < -0.5 then
        -((prologue env inp (atCall inp c)).1.stiffness_value * env.pow 0.008 1.35 -
          (prologue env inp (atCall inp c)).1.damping_value * env.pow 0.008 1.35 *
            (inp.v 2 - (prologue env inp (atCall inp c)).1.surf_vel))
      else 0.0 := rfl
  have hm : (update env inp c).2.F_min 2 =
      if c.m_ft_sensor_wrench 2 < -0.5 then -9 else -c.F_max 2 := by
    rw [hF]; rfl
  have hfree : ¬ c.m_ft_sensor_wrench 2 < -0.5 →
      (prologue env inp (atCall inp c)).1.F_ref 2 = 0 ∧
      (update env inp c).2.F_min 2 = -c.F_max 2 := by
    intro hc
    rw [hz, hm, if_neg hc, if_neg hc]
    exact ⟨by norm_num, rfl⟩
  refine ⟨?_, hfree, ?_, ?_, ?_, rfl⟩
  · intro hc
    rw [hz, hm, if_pos hc, if_pos hc]
    exact ⟨rfl, rfl⟩
  · intro hc
    exact hfree (by rw [hc]; exact lt_irrefl _)
  · show (0.0 : ℚ) = 0
    norm_num
  · show (0.0 : ℚ) = 0
    norm_num

/-- Witness for C11: the controller pressing on the surface with `Fz_meas = −2`. -/
theorem reference_force_witness :
    (¬ |movingInput.now - contactCtrl.old_time| < coalesceWindow) ∧
    contactCtrl.m_ft_sensor_wrench 2 < -0.5 ∧
    (update envOk movingInput contactCtrl).2.F_min 2 = -9 :=
  ⟨by norm_num [movingInput, contactCtrl, restCtrl, coalesceWindow],
   by norm_num [contactCtrl],
   ((reference_force envOk movingInput contactCtrl
     (by norm_num [movingInput, contactCtrl, restCtrl, coalesceWindow])).1
     (by norm_num [contactCtrl])).2⟩

/-! ### The startup program -/

/-- With `v = 0` and `e = 0` the cost of the assembled program is
`½·Σ R_i·k_i² − Σ kd_min,i·R_i·k_i`. -/
theorem assembleQP_cost_at_rest (env : Env) (inp : TickInput) (c : Ctrl)
    (hv : ∀ i, inp.v i = 0) (he : ∀ i, inp.target i - inp.p i = 0) (k : Vec3) :
    (assembleQP env inp (atCall inp c)).cost k =
      1 / 2 * (c.R 0 * k 0 ^ 2 + c.R 1 * k 1 ^ 2 + c.R 2 * k 2 ^ 2) -
        (c.kd_min 0 * c.R 0 * k 0 + c.kd_min 1 * c.R 1 * k 1 + c.kd_min 2 * c.R 2 * k 2) := by
  simp [QPData.cost, assembleQP, constraintsQP, prologue, atCall, hv, he]
  ring

/-- With `v = 0` and `e = 0` every row of the constraint matrix vanishes. -/
theorem assembleQP_row_at_rest (env : Env) (inp : TickInput) (c : Ctrl)
    (hv : ∀ i, inp.v i = 0) (he : ∀ i, inp.target i - inp.p i = 0) (r : Fin 5) (k : Vec3) :
    (assembleQP env inp (atCall inp c)).row r.val k = 0 := by
  fin_cases r <;>
    simp [QPData.row, assembleQP, constraintsQP, prologue, atCall, hv, he]

/-- With `v = 0` and `e = 0`, a non-empty tank and a forward step, the point `kd_min`
satisfies the bounds and all five rows. -/
theorem assembleQP_feasible_at_rest (env : Env) (inp : TickInput) (c : Ctrl)
    (hfwd : coalesceWindow ≤ inp.now - c.old_time)
    (hv : ∀ i, inp.v i = 0) (he : ∀ i, inp.target i - inp.p i = 0)
    (htank : c.tank_energy_threshold ≤ c.tank_energy)
    (hkd : ∀ i, c.kd_min i ≤ c.kd_max i)
    (hFmin : c.F_min 0 ≤ 0 ∧ c.F_min 1 ≤ 0) (hFmax : ∀ i, 0 ≤ c.F_max i) :
    (assembleQP env inp (atCall inp c)).feasible c.kd_min := by
  have hdt : (0 : ℚ) < ((inp.now - c.old_time : Int) : ℚ) * 1e-9 := by
    have hw : (0 : Int) < inp.now - c.old_time := by
      have : (0 : Int) < coalesceWindow := by norm_num [coalesceWindow]
      omega
    have : (0 : ℚ) < ((inp.now - c.old_time : Int) : ℚ) := by exact_mod_cast hw
    positivity
  have hlevel : (c.tank_energy_threshold - c.tank_energy) /
      (((inp.now - c.old_time : Int) : ℚ) * 1e-9) ≤ 0 :=
    div_nonpos_of_nonpos_of_nonneg (by linarith) hdt.le
  refine ⟨?_, ?_⟩
  · intro i
    have h := hkd i
    fin_cases i <;> exact ⟨le_refl _, h⟩
  · intro r
    rw [assembleQP_row_at_rest env inp c hv he r c.kd_min]
    have h0 := hFmax 0
    have h1 := hFmax 1
    have h2 := hFmax 2
    fin_cases r
    · simpa [assembleQP, constraintsQP, prologue, atCall, hv] using ⟨hFmin.1, h0⟩
    · simpa [assembleQP, constraintsQP, prologue, atCall, hv] using ⟨hFmin.2, h1⟩
    · refine ⟨?_, ?_⟩
      · show (if c.m_ft_sensor_wrench 2 < -0.5 then (-9 : ℚ) else -c.F_max 2) -
          c.m_damping 2 2 * -inp.v 2 ≤ 0
        rw [hv 2]
        split_ifs <;> linarith
      · simpa [assembleQP, constraintsQP, prologue, atCall, hv] using h2
    · refine ⟨?_, ?_⟩
      · show -((if c.tank_energy ≥ 1.0 then (0.0 : ℚ) else 1.0) *
            quadForm ![-inp.v 0, -inp.v 1, -inp.v 2] (block33 c.m_damping)
              ![-inp.v 0, -inp.v 1, -inp.v 2]) +
          diagForm (fun i => ![inp.target 0, inp.target 1, inp.target 2] i -
            ![inp.p 0, inp.p 1, inp.p 2] i) c.kd_min ![-inp.v 0, -inp.v 1, -inp.v 2] +
          (c.tank_energy_threshold - c.tank_energy) /
            (((inp.now - c.old_time : Int) : ℚ) * 1e-9) ≤ 0
        simp only [quadForm, diagForm, hv]
        simpa using hlevel
      · show (0 : ℚ) ≤ 1e9
        norm_num
    · refine ⟨?_, ?_⟩
      · show -((if c.tank_energy ≥ 1.0 then (0.0 : ℚ) else 1.0) *
            quadForm ![-inp.v 0, -inp.v 1, -inp.v 2] (block33 c.m_damping)
              ![-inp.v 0, -inp.v 1, -inp.v 2]) +
          diagForm (fun i => ![inp.target 0, inp.target 1, inp.target 2] i -
            ![inp.p 0, inp.p 1, inp.p 2] i) c.kd_min ![-inp.v 0, -inp.v 1, -inp.v 2] -
          0.1 ≤ 0
        simp only [quadForm, diagForm, hv]
        norm_num
      · show (0 : ℚ) ≤ 1e9
        norm_num

/-- A point whose cost at rest does not exceed the cost of `kd_min` is `kd_min`. -/
theorem cost_at_rest_unique (R kmin k : Vec3) (hR : ∀ i, 0 < R i)
    (hle : 1 / 2 * (R 0 * k 0 ^ 2 + R 1 * k 1 ^ 2 + R 2 * k 2 ^ 2) -
        (kmin 0 * R 0 * k 0 + kmin 1 * R 1 * k 1 + kmin 2 * R 2 * k 2) ≤
      1 / 2 * (R 0 * kmin 0 ^ 2 + R 1 * kmin 1 ^ 2 + R 2 * kmin 2 ^ 2) -
        (kmin 0 * R 0 * kmin 0 + kmin 1 * R 1 * kmin 1 + kmin 2 * R 2 * kmin 2)) :
    k = kmin := by
  have t0 := mul_nonneg (hR 0).le (sq_nonneg (k 0 - kmin 0))
  have t1 := mul_nonneg (hR 1).le (sq_nonneg (k 1 - kmin 1))
  have t2 := mul_nonneg (hR 2).le (sq_nonneg (k 2 - kmin 2))
  have hsum : R 0 * (k 0 - kmin 0) ^ 2 + R 1 * (k 1 - kmin 1) ^ 2 +
      R 2 * (k 2 - kmin 2) ^ 2 ≤ 0 := by
    nlinarith [hle]
  have z0 : R 0 * (k 0 - kmin 0) ^ 2 = 0 := by linarith
  have z1 : R 1 * (k 1 - kmin 1) ^ 2 = 0 := by linarith
  have z2 : R 2 * (k 2 - kmin 2) ^ 2 = 0 := by linarith
  have e0 : k 0 = kmin 0 := by
    rcases mul_eq_zero.mp z0 with hz | hz
    · exact absurd hz (hR 0).ne'
    · exact sub_eq_zero.mp (pow_eq_zero_iff (by norm_num) |>.mp hz)
  have e1 : k 1 = kmin 1 := by
    rcases mul_eq_zero.mp z1 with hz | hz
    · exact absurd hz (hR 1).ne'
    · exact sub_eq_zero.mp (pow_eq_zero_iff (by norm_num) |>.mp hz)
  have e2 : k 2 = kmin 2 := by
    rcases mul_eq_zero.mp z2 with hz | hz
    · exact absurd hz (hR 2).ne'
    · exact sub_eq_zero.mp (pow_eq_zero_iff (by norm_num) |>.mp hz)
  funext i
  fin_cases i
  · exact e0
  · exact e1
  · exact e2

/-- The member `kd` after a tick on which the solver succeeds is the solver's solution. -/
theorem update_kd_success (env : Env) (inp : TickInput) (c : Ctrl)
    (h : ¬ |inp.now - c.old_time| < coalesceWindow)
    (hne : ¬ c.tank_energy < c.tank_energy_threshold)
    (hs : (env.solve (assembleQP env inp (atCall inp c))).1 = SUCCESSFUL_RETURN) :
    (update env inp c).2.kd =
      ![(env.solve (assembleQP env inp (atCall inp c))).2 0,
        (env.solve (assembleQP env inp (atCall inp c))).2 1,
        (env.solve (assembleQP env inp (atCall inp c))).2 2] := by
  rw [update_tick env inp c h, computeStiffness_success env inp (atCall inp c) hne hs]
  rfl

/-- C12: in the startup scenario (`v = 0`, `e = 0`, tank at or above the threshold, clock
moved forward), with `R > 0`, `kd_min ≤ kd_max` and `F_min ≤ 0 ≤ F_max` componentwise, the
point `kd_min` is feasible for the program that `computeStiffness` hands to the solver and
is the unique minimiser of `½·kᵀ·H·k + gᵀ·k` over the feasible set; so a successful solve
that returns a minimiser yields `kd = kd_min`.  The measured force plays no part: the
statement holds in contact as well as for `Fz_meas = 0`. -/
theorem startup_kd_min_unique_minimiser (env : Env) (inp : TickInput) (c : Ctrl)
    (hfwd : coalesceWindow ≤ inp.now - c.old_time)
    (hv : ∀ i, inp.v i = 0) (he : ∀ i, inp.target i - inp.p i = 0)
    (htank : c.tank_energy_threshold ≤ c.tank_energy)
    (hR : ∀ i, 0 < c.R i) (hkd : ∀ i, c.kd_min i ≤ c.kd_max i)
    (hFmin : c.F_min 0 ≤ 0 ∧ c.F_min 1 ≤ 0) (hFmax : ∀ i, 0 ≤ c.F_max i) :
    solverInputs (update env inp c).2.log =
      solverInputs c.log ++ [assembleQP env inp (atCall inp c)] ∧
    (assembleQP env inp (atCall inp c)).feasible c.kd_min ∧
    (∀ k, (assembleQP env inp (atCall inp c)).feasible k →
      (assembleQP env inp (atCall inp c)).cost c.kd_min ≤
        (assembleQP env inp (atCall inp c)).cost k) ∧
    (∀ k, (assembleQP env inp (atCall inp c)).feasible k →
      (assembleQP env inp (atCall inp c)).cost k ≤
        (assembleQP env inp (atCall inp c)).cost c.kd_min → k = c.kd_min) ∧
    ((env.solve (assembleQP env inp (atCall inp c))).1 = SUCCESSFUL_RETURN →
      (assembleQP env inp (atCall inp c)).feasible
        (env.solve (assembleQP env inp (atCall inp c))).2 →
      (∀ k, (assembleQP env inp (atCall inp c)).feasible k →
        (assembleQP env inp (atCall inp c)).cost
            (env.solve (assembleQP env inp (atCall inp c))).2 ≤
          (assembleQP env inp (atCall inp c)).cost k) →
      (update env inp c).2.kd = c.kd_min) := by
  have hw : (0 : Int) < coalesceWindow := by norm_num [coalesceWindow]
  have hg : ¬ |inp.now - c.old_time| < coalesceWindow := by
    rw [abs_of_nonneg (by omega)]
    omega
  have hne : ¬ c.tank_energy < c.tank_energy_threshold := not_lt.mpr htank
  have hfeas := assembleQP_feasible_at_rest env inp c hfwd hv he htank hkd hFmin hFmax
  have huniq : ∀ k, (assembleQP env inp (atCall inp c)).cost k ≤
      (assembleQP env inp (atCall inp c)).cost c.kd_min → k = c.kd_min := by
    intro k hle
    rw [assembleQP_cost_at_rest env inp c hv he, assembleQP_cost_at_rest env inp c hv he] at hle
    exact cost_at_rest_unique c.R c.kd_min k hR hle
  refine ⟨update_solverInputs env inp c hg hne, hfeas, ?_, fun k _ hle => huniq k hle, ?_⟩
  · intro k _
    rw [assembleQP_cost_at_rest env inp c hv he, assembleQP_cost_at_rest env inp c hv he]
    nlinarith [mul_nonneg (hR 0).le (sq_nonneg (k 0 - c.kd_min 0)),
      mul_nonneg (hR 1).le (sq_nonneg (k 1 - c.kd_min 1)),
      mul_nonneg (hR 2).le (sq_nonneg (k 2 - c.kd_min 2))]
  · intro hs _ hmin
    have hx := huniq _ (hmin c.kd_min hfeas)
    rw [update_kd_success env inp c hg hne hs, hx]
    funext i
    fin_cases i <;> rfl

/-- Witness for C12: the startup scenario of the specification, `Fz_meas = 0`, `v = 0`,
`e = 0`, tank at `1.0`, ticked one millisecond after activation time. -/
theorem startup_kd_min_unique_minimiser_witness :
    coalesceWindow ≤ restInput.now - startupCtrl.old_time ∧
    startupCtrl.m_ft_sensor_wrench 2 = 0 ∧
    startupCtrl.tank_energy = 1.0 ∧
    (assembleQP envOk restInput (atCall restInput startupCtrl)).feasible startupCtrl.kd_min ∧
    (∀ k, (assembleQP envOk restInput (atCall restInput startupCtrl)).feasible k →
      (assembleQP envOk restInput (atCall restInput startupCtrl)).cost k ≤
        (assembleQP envOk restInput (atCall restInput startupCtrl)).cost startupCtrl.kd_min →
      k = startupCtrl.kd_min) :=
  ⟨by norm_num [coalesceWindow, restInput, startupCtrl, restCtrl], rfl, rfl,
   (startup_kd_min_unique_minimiser envOk restInput startupCtrl
     (by norm_num [coalesceWindow, restInput, startupCtrl, restCtrl])
     (by intro i; fin_cases i <;> simp [restInput])
     (by intro i; fin_cases i <;> simp [restInput])
     (by norm_num [startupCtrl, restCtrl])
     (by intro i; fin_cases i <;> norm_num [startupCtrl, restCtrl])
     (by intro i; fin_cases i <;> norm_num [startupCtrl, restCtrl])
     (by norm_num [startupCtrl, restCtrl])
     (by intro i; fin_cases i <;> norm_num [startupCtrl, restCtrl])).2.1,
   (startup_kd_min_unique_minimiser envOk restInput startupCtrl
     (by norm_num [coalesceWindow, restInput, startupCtrl, restCtrl])
     (by intro i; fin_cases i <;> simp [restInput])
     (by intro i; fin_cases i <;> simp [restInput])
     (by norm_num [startupCtrl, restCtrl])
     (by intro i; fin_cases i <;> norm_num [startupCtrl, restCtrl])
     (by intro i; fin_cases i <;> norm_num [startupCtrl, restCtrl])
     (by norm_num [startupCtrl, restCtrl])
     (by intro i; fin_cases i <;> norm_num [startupCtrl, restCtrl])).2.2.2.1⟩

/-! ### Force rows with a closed force envelope -/

/-- The value of an axis row: `e_i · k_i`. -/
theorem assembleQP_row_axis (env : Env) (inp : TickInput) (c : Ctrl) (k : Vec3) :
    (assembleQP env inp (atCall inp c)).row 0 k = posError inp 0 * k 0 ∧
    (assembleQP env inp (atCall inp c)).row 1 k = posError inp 1 * k 1 ∧
    (assembleQP env inp (atCall inp c)).row 2 k = posError inp 2 * k 2 := by
  refine ⟨?_, ?_, ?_⟩ <;>
    simp [QPData.row, assembleQP, constraintsQP, prologue, atCall, posError]

/-- The bounds of the axis rows. -/
theorem assembleQP_axis_bounds (env : Env) (inp : TickInput) (c : Ctrl) :
    (assembleQP env inp (atCall inp c)).lbA.getD 0 0 =
      c.F_min 0 - diag3 c.m_damping 0 * velError inp 0 ∧
    (assembleQP env inp (atCall inp c)).lbA.getD 1 0 =
      c.F_min 1 - diag3 c.m_damping 1 * velError inp 1 ∧
    (assembleQP env inp (atCall inp c)).lbA.getD 2 0 =
      (if c.m_ft_sensor_wrench 2 < -0.5 then -9 else -c.F_max 2) -
        diag3 c.m_damping 2 * velError inp 2 ∧
    (assembleQP env inp (atCall inp c)).ubA.getD 0 0 =
      c.F_max 0 - diag3 c.m_damping 0 * velError inp 0 ∧
    (assembleQP env inp (atCall inp c)).ubA.getD 1 0 =
      c.F_max 1 - diag3 c.m_damping 1 * velError inp 1 ∧
    (assembleQP env inp (atCall inp c)).ubA.getD 2 0 =
      c.F_max 2 - diag3 c.m_damping 2 * velError inp 2 :=
  ⟨rfl, rfl, rfl, rfl, rfl, rfl⟩

/-- The value of the two tank rows: `Σ e_i · vₑ,i · k_i`. -/
theorem assembleQP_row_tank (env : Env) (inp : TickInput) (c : Ctrl) (k : Vec3) :
    (assembleQP env inp (atCall inp c)).row 3 k =
      posError inp 0 * velError inp 0 * k 0 + posError inp 1 * velError inp 1 * k 1 +
        posError inp 2 * velError inp 2 * k 2 ∧
    (assembleQP env inp (atCall inp c)).row 4 k =
      posError inp 0 * velError inp 0 * k 0 + posError inp 1 * velError inp 1 * k 1 +
        posError inp 2 * velError inp 2 * k 2 :=
  ⟨rfl, rfl⟩

/-- The bounds of the two tank rows. -/
theorem assembleQP_tank_bounds (env : Env) (inp : TickInput) (c : Ctrl) :
    (assembleQP env inp (atCall inp c)).lbA.getD 3 0 =
      -((if c.tank_energy ≥ 1.0 then 0.0 else 1.0) *
          quadForm (velError inp) (block33 c.m_damping) (velError inp)) +
        diagForm (posError inp) c.kd_min (velError inp) +
        (c.tank_energy_threshold - c.tank_energy) / stepLength inp c ∧
    (assembleQP env inp (atCall inp c)).lbA.getD 4 0 =
      -((if c.tank_energy ≥ 1.0 then 0.0 else 1.0) *
          quadForm (velError inp) (block33 c.m_damping) (velError inp)) +
        diagForm (posError inp) c.kd_min (velError inp) - 0.1 ∧
    (assembleQP env inp (atCall inp c)).ubA.getD 3 0 = 1e9 ∧
    (assembleQP env inp (atCall inp c)).ubA.getD 4 0 = 1e9 :=
  ⟨rfl, rfl, rfl, rfl⟩

/-- The quadratic form of the translational block of a diagonal matrix. -/
theorem quadForm_asDiagonal (u w : Vec3) (d : Vec6) :
    quadForm u (block33 (asDiagonal d)) w = u 0 * d 0 * w 0 + u 1 * d 1 * w 1 + u 2 * d 2 * w 2 := by
  have h : quadForm u (block33 (asDiagonal d)) w =
      (u 0 * d 0 + u 1 * 0 + u 2 * 0) * w 0 + (u 0 * 0 + u 1 * d 1 + u 2 * 0) * w 1 +
        (u 0 * 0 + u 1 * 0 + u 2 * d 2) * w 2 := rfl
  rw [h]
  ring

/-- The translational diagonal of a diagonal matrix. -/
theorem diag3_asDiagonal (d : Vec6) : diag3 (asDiagonal d) = ![d 0, d 1, d 2] := rfl

/-- Counterexample for C13: with `F_max = (0, 0, 0)`, `F_min = −F_max` and a position error
that is non-zero on every axis, no axis row has `lbA_i > ubA_i`, and the program is
feasible: `kd = (141.4, 141.4, 141.4)` meets the bounds and all five rows. -/
theorem closed_envelope_rows_not_crossed :
    (∀ i, zeroFmaxCtrl.F_max i = 0) ∧
    zeroFmaxCtrl.F_min 0 = -zeroFmaxCtrl.F_max 0 ∧
    zeroFmaxCtrl.F_min 1 = -zeroFmaxCtrl.F_max 1 ∧
    (∀ i, posError approachInput i ≠ 0) ∧
    (¬ |approachInput.now - zeroFmaxCtrl.old_time| < coalesceWindow) ∧
    (¬ zeroFmaxCtrl.tank_energy < zeroFmaxCtrl.tank_energy_threshold) ∧
    (¬ ∃ i : Fin 3,
      (assembleQP envOk approachInput (atCall approachInput zeroFmaxCtrl)).lbA.getD i.val 0 >
        (assembleQP envOk approachInput (atCall approachInput zeroFmaxCtrl)).ubA.getD i.val 0) ∧
    (assembleQP envOk approachInput (atCall approachInput zeroFmaxCtrl)).feasible
      ![141.4, 141.4, 141.4] := by
  refine ⟨?_, ?_, ?_, ?_, ?_, ?_, ?_, ?_⟩
  · intro i
    fin_cases i <;> simp [zeroFmaxCtrl]
  · simp [zeroFmaxCtrl]
  · simp [zeroFmaxCtrl]
  · intro i
    fin_cases i <;> norm_num [posError, approachInput]
  · norm_num [approachInput, zeroFmaxCtrl, restCtrl, coalesceWindow]
  · norm_num [zeroFmaxCtrl, restCtrl]
  · obtain ⟨l0, l1, l2, u0, u1, u2⟩ :=
      assembleQP_axis_bounds envOk approachInput zeroFmaxCtrl
    rintro ⟨i, hi⟩
    fin_cases i
    · simp only [l0, u0] at hi
      norm_num [zeroFmaxCtrl] at hi
    · simp only [l1, u1] at hi
      norm_num [zeroFmaxCtrl] at hi
    · simp only [l2, u2] at hi
      norm_num [zeroFmaxCtrl, restCtrl] at hi
  · have hD : zeroFmaxCtrl.m_damping = asDiagonal (fun _ => 14.14) := rfl
    obtain ⟨l0, l1, l2, u0, u1, u2⟩ :=
      assembleQP_axis_bounds envOk approachInput zeroFmaxCtrl
    obtain ⟨l3, l4, u3, u4⟩ := assembleQP_tank_bounds envOk approachInput zeroFmaxCtrl
    obtain ⟨r0, r1, r2⟩ :=
      assembleQP_row_axis envOk approachInput zeroFmaxCtrl ![141.4, 141.4, 141.4]
    obtain ⟨r3, r4⟩ :=
      assembleQP_row_tank envOk approachInput zeroFmaxCtrl ![141.4, 141.4, 141.4]
    rw [hD, diag3_asDiagonal] at l0 l1 l2 u0 u1 u2
    rw [hD, quadForm_asDiagonal] at l3 l4
    refine ⟨?_, ?_⟩
    · intro i
      rw [assembleQP_lb, assembleQP_ub]
      fin_cases i <;> norm_num [atCall, zeroFmaxCtrl, restCtrl]
    · intro r
      fin_cases r
      · simp only [l0, u0, r0]
        norm_num [zeroFmaxCtrl, restCtrl, approachInput, posError, velError]
      · simp only [l1, u1, r1]
        norm_num [zeroFmaxCtrl, restCtrl, approachInput, posError, velError]
      · simp only [l2, u2, r2]
        norm_num [zeroFmaxCtrl, restCtrl, approachInput, posError, velError]
      · simp only [l3, u3, r3]
        norm_num [zeroFmaxCtrl, restCtrl, approachInput, posError, velError, stepLength,
          diagForm]
      · simp only [l4, u4, r4]
        norm_num [zeroFmaxCtrl, restCtrl, approachInput, posError, velError, diagForm]

/-- C13 (amended): on every tick that reaches the solver with `F_max = (0, 0, 0)` and
`F_min_{x,y} = −F_max_{x,y}`, no axis row has `lbA_i > ubA_i`: the bounds coincide on `x`
and `y`, and on `z` they coincide in free motion and are `lbA_z = ubA_z − 9` in contact.
A row with coinciding bounds is the equality `e_i·kd_i = −D_ii·vₑ,i` for every feasible
`kd`; so with `v = 0` the program is infeasible as soon as such an axis has `e_i ≠ 0` and
`kd_min,i > 0`.  Whenever the solver reports a status other than success, the failure
fallback returns `(kd_min, 50, 50, 50)`. -/
theorem closed_envelope_force_rows (env : Env) (inp : TickInput) (c : Ctrl)
    (h : ¬ |inp.now - c.old_time| < coalesceWindow)
    (hne : ¬ c.tank_energy < c.tank_energy_threshold)
    (hFmax : ∀ i, c.F_max i = 0)
    (hFmin : c.F_min 0 = -c.F_max 0 ∧ c.F_min 1 = -c.F_max 1) :
    solverInputs (update env inp c).2.log =
      solverInputs c.log ++ [assembleQP env inp (atCall inp c)] ∧
    (∀ i : Fin 3, (assembleQP env inp (atCall inp c)).lbA.getD i.val 0 ≤
      (assembleQP env inp (atCall inp c)).ubA.getD i.val 0) ∧
    (assembleQP env inp (atCall inp c)).lbA.getD 0 0 =
      (assembleQP env inp (atCall inp c)).ubA.getD 0 0 ∧
    (assembleQP env inp (atCall inp c)).lbA.getD 1 0 =
      (assembleQP env inp (atCall inp c)).ubA.getD 1 0 ∧
    (¬ c.m_ft_sensor_wrench 2 < -0.5 →
      (assembleQP env inp (atCall inp c)).lbA.getD 2 0 =
        (assembleQP env inp (atCall inp c)).ubA.getD 2 0) ∧
    (c.m_ft_sensor_wrench 2 < -0.5 →
      (assembleQP env inp (atCall inp c)).lbA.getD 2 0 =
        (assembleQP env inp (atCall inp c)).ubA.getD 2 0 - 9) ∧
    (∀ k, (assembleQP env inp (atCall inp c)).feasible k →
      posError inp 0 * k 0 = -(diag3 c.m_damping 0 * velError inp 0) ∧
      posError inp 1 * k 1 = -(diag3 c.m_damping 1 * velError inp 1) ∧
      (¬ c.m_ft_sensor_wrench 2 < -0.5 →
        posError inp 2 * k 2 = -(diag3 c.m_damping 2 * velError inp 2))) ∧
    ((∀ i, inp.v i = 0) →
      (posError inp 0 ≠ 0 ∧ 0 < c.kd_min 0) ∨ (posError inp 1 ≠ 0 ∧ 0 < c.kd_min 1) ∨
        (¬ c.m_ft_sensor_wrench 2 < -0.5 ∧ posError inp 2 ≠ 0 ∧ 0 < c.kd_min 2) →
      ∀ k, ¬ (assembleQP env inp (atCall inp c)).feasible k) ∧
    ((env.solve (assembleQP env inp (atCall inp c))).1 ≠ SUCCESSFUL_RETURN →
      (computeStiffness env inp (atCall inp c)).1 =
        ![c.kd_min 0, c.kd_min 1, c.kd_min 2, 50, 50, 50]) := by
  obtain ⟨l0, l1, l2, u0, u1, u2⟩ := assembleQP_axis_bounds env inp c
  have f0 := hFmax 0
  have f1 := hFmax 1
  have f2 := hFmax 2
  have e0 : (assembleQP env inp (atCall inp c)).lbA.getD 0 0 =
      (assembleQP env inp (atCall inp c)).ubA.getD 0 0 := by
    rw [l0, u0, hFmin.1, f0]; ring
  have e1 : (assembleQP env inp (atCall inp c)).lbA.getD 1 0 =
      (assembleQP env inp (atCall inp c)).ubA.getD 1 0 := by
    rw [l1, u1, hFmin.2, f1]; ring
  have e2 : ¬ c.m_ft_sensor_wrench 2 < -0.5 →
      (assembleQP env inp (atCall inp c)).lbA.getD 2 0 =
        (assembleQP env inp (atCall inp c)).ubA.getD 2 0 := by
    intro hc
    rw [l2, u2, if_neg hc, f2]; ring
  have e2c : c.m_ft_sensor_wrench 2 < -0.5 →
      (assembleQP env inp (atCall inp c)).lbA.getD 2 0 =
        (assembleQP env inp (atCall inp c)).ubA.getD 2 0 - 9 := by
    intro hc
    rw [l2, u2, if_pos hc, f2]; ring
  have hle : ∀ i : Fin 3, (assembleQP env inp (atCall inp c)).lbA.getD i.val 0 ≤
      (assembleQP env inp (atCall inp c)).ubA.getD i.val 0 := by
    intro i
    fin_cases i
    · exact e0.le
    · exact e1.le
    · by_cases hc : c.m_ft_sensor_wrench 2 < -0.5
      · show (assembleQP env inp (atCall inp c)).lbA.getD 2 0 ≤ _
        rw [e2c hc]
        show _ - 9 ≤ (assembleQP env inp (atCall inp c)).ubA.getD 2 0
        linarith
      · exact (e2 hc).le
  have heq : ∀ k, (assembleQP env inp (atCall inp c)).feasible k →
      posError inp 0 * k 0 = -(diag3 c.m_damping 0 * velError inp 0) ∧
      posError inp 1 * k 1 = -(diag3 c.m_damping 1 * velError inp 1) ∧
      (¬ c.m_ft_sensor_wrench 2 < -0.5 →
        posError inp 2 * k 2 = -(diag3 c.m_damping 2 * velError inp 2)) := by
    intro k hk
    obtain ⟨r0, r1, r2⟩ := assembleQP_row_axis env inp c k
    have b0 := hk.2 0
    have b1 := hk.2 1
    have b2 := hk.2 2
    simp only [Fin.val_zero, Fin.val_one, Fin.val_two] at b0 b1 b2
    refine ⟨?_, ?_, ?_⟩
    · rw [r0, e0, u0, f0] at b0
      linarith [b0.1, b0.2]
    · rw [r1, e1, u1, f1] at b1
      linarith [b1.1, b1.2]
    · intro hc
      rw [r2, e2 hc, u2, f2] at b2
      linarith [b2.1, b2.2]
  refine ⟨update_solverInputs env inp c h hne, hle, e0, e1, e2, e2c, heq, ?_, ?_⟩
  · intro hv hax k hk
    obtain ⟨q0, q1, q2⟩ := heq k hk
    have hlb := hk.1
    rw [assembleQP_lb] at hlb
    have v0 : velError inp 0 = 0 := by show -inp.v 0 = 0; rw [hv 0]; ring
    have v1 : velError inp 1 = 0 := by show -inp.v 1 = 0; rw [hv 1]; ring
    have v2 : velError inp 2 = 0 := by show -inp.v 2 = 0; rw [hv 2]; ring
    rcases hax with ⟨hp, hk0⟩ | ⟨hp, hk1⟩ | ⟨hc, hp, hk2⟩
    · rw [v0, mul_zero, neg_zero] at q0
      have hz : k 0 = 0 := by
        rcases mul_eq_zero.mp q0 with hh | hh
        · exact absurd hh hp
        · exact hh
      have hb := (hlb 0).1
      have hb' : c.kd_min 0 ≤ k 0 := hb
      linarith
    · rw [v1, mul_zero, neg_zero] at q1
      have hz : k 1 = 0 := by
        rcases mul_eq_zero.mp q1 with hh | hh
        · exact absurd hh hp
        · exact hh
      have hb := (hlb 1).1
      have hb' : c.kd_min 1 ≤ k 1 := hb
      linarith
    · have q2' := q2 hc
      rw [v2, mul_zero, neg_zero] at q2'
      have hz : k 2 = 0 := by
        rcases mul_eq_zero.mp q2' with hh | hh
        · exact absurd hh hp
        · exact hh
      have hb := (hlb 2).1
      have hb' : c.kd_min 2 ≤ k 2 := hb
      linarith
  · intro hs
    rw [computeStiffness_fallback_fst env inp (atCall inp c) (Or.inr hs)]
    show ![c.kd_min 0, c.kd_min 1, c.kd_min 2, (50.0 : ℚ), 50.0, 50.0] = _
    norm_num

/-- Witness for C13 (amended): the closed force envelope of the counterexample. -/
theorem closed_envelope_force_rows_witness :
    (¬ |approachInput.now - zeroFmaxCtrl.old_time| < coalesceWindow) ∧
    (¬ zeroFmaxCtrl.tank_energy < zeroFmaxCtrl.tank_energy_threshold) ∧
    (∀ i, zeroFmaxCtrl.F_max i = 0) ∧
    (zeroFmaxCtrl.F_min 0 = -zeroFmaxCtrl.F_max 0 ∧
      zeroFmaxCtrl.F_min 1 = -zeroFmaxCtrl.F_max 1) ∧
    (∀ i : Fin 3,
      (assembleQP envOk approachInput (atCall approachInput zeroFmaxCtrl)).lbA.getD i.val 0 ≤
        (assembleQP envOk approachInput (atCall approachInput zeroFmaxCtrl)).ubA.getD i.val 0) :=
  ⟨by norm_num [approachInput, zeroFmaxCtrl, restCtrl, coalesceWindow],
   by norm_num [zeroFmaxCtrl, restCtrl],
   by intro i; fin_cases i <;> simp [zeroFmaxCtrl],
   by simp [zeroFmaxCtrl],
   (closed_envelope_force_rows envOk approachInput zeroFmaxCtrl
     (by norm_num [approachInput, zeroFmaxCtrl, restCtrl, coalesceWindow])
     (by norm_num [zeroFmaxCtrl, restCtrl])
     (by intro i; fin_cases i <;> simp [zeroFmaxCtrl])
     (by simp [zeroFmaxCtrl])).2.1⟩

/-! ### What the tank rows guarantee -/

/-- The tank after a tick on which the solver succeeds. -/
theorem update_tank_success (env : Env) (inp : TickInput) (c : Ctrl)
    (h : ¬ |inp.now - c.old_time| < coalesceWindow)
    (hne : ¬ c.tank_energy < c.tank_energy_threshold)
    (hs : (env.solve (assembleQP env inp (atCall inp c))).1 = SUCCESSFUL_RETURN) :
    (update env inp c).2.energy_var_stiff =
      diagForm (posError inp)
        (fun i => (env.solve (assembleQP env inp (atCall inp c))).2 i - c.kd_min i)
        (velError inp) ∧
    (update env inp c).2.energy_var_damping =
      (if c.tank_energy ≥ 1.0 then 0.0 else 1.0) *
        quadForm (velError inp) (block33 c.m_damping) (velError inp) ∧
    (update env inp c).2.tank_energy =
      c.tank_energy +
        ((update env inp c).2.energy_var_stiff + (update env inp c).2.energy_var_damping) *
          stepLength inp c ∧
    (update env inp c).2.tank_energy_threshold = c.tank_energy_threshold := by
  rw [update_tick env inp c h, computeStiffness_success env inp (atCall inp c) hne hs]
  exact ⟨rfl, rfl, rfl, rfl⟩

/-- C14: on every tick that reaches the solver with `Δt > 0`, every `kd` that satisfies
row 4 (`A_4·kd ≥ lbA_4`) gives a tank level `Xₜ + (energy_var_stiff +
energy_var_damping)·Δt` of at least `T_min`, and every `kd` that satisfies row 5
(`A_5·kd ≥ lbA_5`) gives a tank rate `energy_var_stiff + energy_var_damping` of at least
`−power_limit`, where `energy_var_stiff = eᵀ·diag(kd − kd_min)·vₑ`.  The level is the one
the success path stores when the solver returns such a `kd`. -/
theorem tank_rows_guarantee (env : Env) (inp : TickInput) (c : Ctrl)
    (hfwd : coalesceWindow ≤ inp.now - c.old_time)
    (hne : ¬ c.tank_energy < c.tank_energy_threshold) :
    solverInputs (update env inp c).2.log =
      solverInputs c.log ++ [assembleQP env inp (atCall inp c)] ∧
    (∀ k : Vec3,
      (assembleQP env inp (atCall inp c)).lbA.getD 3 0 ≤
        (assembleQP env inp (atCall inp c)).row 3 k →
      c.tank_energy_threshold ≤
        c.tank_energy +
          (diagForm (posError inp) (fun i => k i - c.kd_min i) (velError inp) +
            (if c.tank_energy ≥ 1.0 then 0.0 else 1.0) *
              quadForm (velError inp) (block33 c.m_damping) (velError inp)) *
            stepLength inp c) ∧
    (∀ k : Vec3,
      (assembleQP env inp (atCall inp c)).lbA.getD 4 0 ≤
        (assembleQP env inp (atCall inp c)).row 4 k →
      -0.1 ≤
        diagForm (posError inp) (fun i => k i - c.kd_min i) (velError inp) +
          (if c.tank_energy ≥ 1.0 then 0.0 else 1.0) *
            quadForm (velError inp) (block33 c.m_damping) (velError inp)) ∧
    ((env.solve (assembleQP env inp (atCall inp c))).1 = SUCCESSFUL_RETURN →
      (update env inp c).2.tank_energy =
        c.tank_energy +
          (diagForm (posError inp)
              (fun i => (env.solve (assembleQP env inp (atCall inp c))).2 i - c.kd_min i)
              (velError inp) +
            (if c.tank_energy ≥ 1.0 then 0.0 else 1.0) *
              quadForm (velError inp) (block33 c.m_damping) (velError inp)) *
            stepLength inp c ∧
      ((assembleQP env inp (atCall inp c)).lbA.getD 3 0 ≤
          (assembleQP env inp (atCall inp c)).row 3
            (env.solve (assembleQP env inp (atCall inp c))).2 →
        (update env inp c).2.tank_energy_threshold ≤ (update env inp c).2.tank_energy)) := by
  have hw : (0 : Int) < coalesceWindow := by norm_num [coalesceWindow]
  have hg : ¬ |inp.now - c.old_time| < coalesceWindow := by
    rw [abs_of_nonneg (by omega)]
    omega
  have hdt : (0 : ℚ) < stepLength inp c := by
    have hpos : (0 : Int) < inp.now - c.old_time := by omega
    have : (0 : ℚ) < ((inp.now - c.old_time : Int) : ℚ) := by exact_mod_cast hpos
    unfold stepLength
    positivity
  obtain ⟨l3, l4, _, _⟩ := assembleQP_tank_bounds env inp c
  have hlevel : ∀ k : Vec3,
      (assembleQP env inp (atCall inp c)).lbA.getD 3 0 ≤
        (assembleQP env inp (atCall inp c)).row 3 k →
      c.tank_energy_threshold ≤
        c.tank_energy +
          (diagForm (posError inp) (fun i => k i - c.kd_min i) (velError inp) +
            (if c.tank_energy ≥ 1.0 then 0.0 else 1.0) *
              quadForm (velError inp) (block33 c.m_damping) (velError inp)) *
            stepLength inp c := by
    intro k hk
    rw [l3, (assembleQP_row_tank env inp c k).1] at hk
    have hq : (c.tank_energy_threshold - c.tank_energy) / stepLength inp c ≤
        diagForm (posError inp) (fun i => k i - c.kd_min i) (velError inp) +
          (if c.tank_energy ≥ 1.0 then 0.0 else 1.0) *
            quadForm (velError inp) (block33 c.m_damping) (velError inp) := by
      simp only [diagForm] at hk ⊢
      linarith
    have := (div_le_iff₀ hdt).mp hq
    linarith
  refine ⟨update_solverInputs env inp c hg hne, hlevel, ?_, ?_⟩
  · intro k hk
    rw [l4, (assembleQP_row_tank env inp c k).2] at hk
    simp only [diagForm] at hk ⊢
    linarith
  · intro hs
    obtain ⟨t1, t2, t3, t4⟩ := update_tank_success env inp c hg hne hs
    have ht : (update env inp c).2.tank_energy =
        c.tank_energy +
          (diagForm (posError inp)
              (fun i => (env.solve (assembleQP env inp (atCall inp c))).2 i - c.kd_min i)
              (velError inp) +
            (if c.tank_energy ≥ 1.0 then 0.0 else 1.0) *
              quadForm (velError inp) (block33 c.m_damping) (velError inp)) *
            stepLength inp c := by
      rw [t3, t1, t2]
    refine ⟨ht, fun hrow => ?_⟩
    rw [t4, ht]
    exact hlevel _ hrow

/-- Witness for C14: the controller at rest, tank at `0.5`, ticked one millisecond later
while moving. -/
theorem tank_rows_guarantee_witness :
    coalesceWindow ≤ movingInput.now - restCtrl.old_time ∧
    (¬ restCtrl.tank_energy < restCtrl.tank_energy_threshold) ∧
    (∀ k : Vec3,
      (assembleQP envOk movingInput (atCall movingInput restCtrl)).lbA.getD 4 0 ≤
        (assembleQP envOk movingInput (atCall movingInput restCtrl)).row 4 k →
      -0.1 ≤
        diagForm (posError movingInput) (fun i => k i - restCtrl.kd_min i)
            (velError movingInput) +
          (if restCtrl.tank_energy ≥ 1.0 then 0.0 else 1.0) *
            quadForm (velError movingInput) (block33 restCtrl.m_damping)
              (velError movingInput)) :=
  ⟨by norm_num [coalesceWindow, movingInput, restCtrl], by norm_num [restCtrl],
   (tank_rows_guarantee envOk movingInput restCtrl
     (by norm_num [coalesceWindow, movingInput, restCtrl])
     (by norm_num [restCtrl])).2.2.1⟩

/-! ### The surface-velocity ring -/

/-- What a tick does to the ring: pop the oldest sample, push
`(z_value − old_z) / Δt`, keep the running sum in step. -/
theorem update_ring (env : Env) (inp : TickInput) (c : Ctrl)
    (h : ¬ |inp.now - c.old_time| < coalesceWindow) :
    (update env inp c).2.m_surf_vel =
      c.m_surf_vel.tail ++
        [((prologue env inp (atCall inp c)).1.z_value - c.old_z) / stepLength inp c] ∧
    (update env inp c).2.m_surf_vel_sum =
      c.m_surf_vel_sum - c.m_surf_vel.headD 0 +
        ((prologue env inp (atCall inp c)).1.z_value - c.old_z) / stepLength inp c ∧
    (update env inp c).2.old_z = (prologue env inp (atCall inp c)).1.z_value := by
  rcases computeStiffness_cases env inp (atCall inp c) with ⟨_, hb⟩ | ⟨_, _, hb⟩ | ⟨_, _, hb⟩
  · rw [update_tick env inp c h, hb]
    exact ⟨rfl, rfl, rfl⟩
  · rw [update_tick env inp c h, hb]
    exact ⟨rfl, rfl, rfl⟩
  · rw [update_tick env inp c h, hb]
    exact ⟨rfl, rfl, rfl⟩

/-- A tick keeps the length of a non-empty ring and keeps the running sum equal to the sum
of the ring. -/
theorem update_ring_invariant (env : Env) (inp : TickInput) (c : Ctrl)
    (hlen : c.m_surf_vel ≠ []) (hsum : c.m_surf_vel_sum = c.m_surf_vel.sum) :
    (update env inp c).2.m_surf_vel.length = c.m_surf_vel.length ∧
    (update env inp c).2.m_surf_vel_sum = (update env inp c).2.m_surf_vel.sum := by
  by_cases h : |inp.now - c.old_time| < coalesceWindow
  · rw [update_coalesced env inp c h]
    exact ⟨rfl, hsum⟩
  · obtain ⟨h1, h2, _⟩ := update_ring env inp c h
    rw [h1, h2, hsum]
    cases hc : c.m_surf_vel with
    | nil => exact absurd hc hlen
    | cons a as => simp

/-- A successful activation appends ten zeros to the queue and sets the running sum to
zero; it does not remove what the queue holds. -/
theorem on_activate_ring (now : Int) (frame_p : Vec3) (c : Ctrl) :
    (on_activate true true now frame_p c).2.m_surf_vel =
      c.m_surf_vel ++ List.replicate 10 0 ∧
    (on_activate true true now frame_p c).2.m_surf_vel_sum = 0 := by
  norm_num [on_activate]

/-- From the first activation on (queue empty before it), through any run of ticks, the
ring holds 10 samples and the running sum is the sum of the ring. -/
theorem first_activation_ring_invariant (env : Env) (now : Int) (frame_p : Vec3) (c : Ctrl)
    (hempty : c.m_surf_vel = []) (inputs : List TickInput) :
    (runTicks env inputs (on_activate true true now frame_p c).2).m_surf_vel.length = 10 ∧
    (runTicks env inputs (on_activate true true now frame_p c).2).m_surf_vel_sum =
      (runTicks env inputs (on_activate true true now frame_p c).2).m_surf_vel.sum := by
  have hinv : ∀ (inputs : List TickInput) (s : Ctrl),
      s.m_surf_vel.length = 10 → s.m_surf_vel_sum = s.m_surf_vel.sum →
      (runTicks env inputs s).m_surf_vel.length = 10 ∧
      (runTicks env inputs s).m_surf_vel_sum = (runTicks env inputs s).m_surf_vel.sum := by
    intro inputs
    induction inputs with
    | nil => intro s h1 h2; exact ⟨h1, h2⟩
    | cons inp rest ih =>
      intro s h1 h2
      have hne : s.m_surf_vel ≠ [] := by
        intro h0
        rw [h0] at h1
        simp at h1
      obtain ⟨k1, k2⟩ := update_ring_invariant env inp s hne h2
      exact ih (update env inp s).2 (by rw [k1, h1]) k2
  obtain ⟨a1, a2⟩ := on_activate_ring now frame_p c
  refine hinv inputs _ ?_ ?_
  · rw [a1, hempty]
    rfl
  · rw [a1, a2, hempty]
    simp

/-- C15, the code at a reactivation: after activate, one tick over a surface `2 mm` above
`old_z`, deactivate and activate again, the queue holds 20 samples (the nine zeros and
the sample `2` of the first run, followed by ten new zeros), the running sum has been
reset to `0` while the samples in the queue add up to `2`, and the queue is not all
zeros.  Before the reactivation the ring had 10 samples and the sum agreed. -/
theorem reactivation_ring_defect :
    (on_activate true true 0 ![0, 0, 0.1] freshCtrl).1 = CallbackReturn.SUCCESS ∧
    (on_activate true true 0 ![0, 0, 0.1] freshCtrl).2.m_surf_vel = List.replicate 10 0 ∧
    firstRun.m_surf_vel = [0, 0, 0, 0, 0, 0, 0, 0, 0, 2] ∧
    firstRun.m_surf_vel_sum = 2 ∧
    (on_deactivate true true firstRun).1 = CallbackReturn.SUCCESS ∧
    (on_activate true true 2000000 ![0, 0, 0.1] (on_deactivate true true firstRun).2).1 =
      CallbackReturn.SUCCESS ∧
    reactivated.m_surf_vel =
      [0, 0, 0, 0, 0, 0, 0, 0, 0, 2, 0, 0, 0, 0, 0, 0, 0, 0, 0, 0] ∧
    reactivated.m_surf_vel.length = 20 ∧
    reactivated.m_surf_vel_sum = 0 ∧
    reactivated.m_surf_vel.sum = 2 := by
  have ha := on_activate_ring 0 ![0, 0, 0.1] freshCtrl
  have hg : ¬ |restInput.now - (on_activate true true 0 ![0, 0, 0.1] freshCtrl).2.old_time| <
      coalesceWindow := by
    norm_num [on_activate, restInput, coalesceWindow]
  obtain ⟨r1, r2, _⟩ :=
    update_ring envOk restInput (on_activate true true 0 ![0, 0, 0.1] freshCtrl).2 hg
  have hz : (prologue envOk restInput
      (atCall restInput (on_activate true true 0 ![0, 0, 0.1] freshCtrl).2)).1.z_value =
      0.1 := rfl
  have hold : (on_activate true true 0 ![0, 0, 0.1] freshCtrl).2.old_z = 0.098 := rfl
  have hstep : stepLength restInput (on_activate true true 0 ![0, 0, 0.1] freshCtrl).2 =
      0.001 := by
    norm_num [stepLength, on_activate, restInput]
  have hfresh : freshCtrl.m_surf_vel = [] := rfl
  have h1 : firstRun.m_surf_vel = [0, 0, 0, 0, 0, 0, 0, 0, 0, 2] := by
    show (update envOk restInput (on_activate true true 0 ![0, 0, 0.1] freshCtrl).2).2.m_surf_vel
      = _
    rw [r1, ha.1, hz, hold, hstep, hfresh]
    norm_num [List.replicate]
  have h2 : firstRun.m_surf_vel_sum = 2 := by
    show (update envOk restInput
      (on_activate true true 0 ![0, 0, 0.1] freshCtrl).2).2.m_surf_vel_sum = _
    rw [r2, ha.1, ha.2, hz, hold, hstep, hfresh]
    norm_num [List.replicate]
  have hb := on_activate_ring 2000000 ![0, 0, 0.1] (on_deactivate true true firstRun).2
  have hd : (on_deactivate true true firstRun).2 = firstRun := rfl
  have h3 : reactivated.m_surf_vel =
      [0, 0, 0, 0, 0, 0, 0, 0, 0, 2, 0, 0, 0, 0, 0, 0, 0, 0, 0, 0] := by
    show (on_activate true true 2000000 ![0, 0, 0.1]
      (on_deactivate true true firstRun).2).2.m_surf_vel = _
    rw [hb.1, hd, h1]
    rfl
  refine ⟨rfl, ?_, h1, h2, rfl, rfl, h3, ?_, hb.2, ?_⟩
  · rw [ha.1, hfresh]
    rfl
  · rw [h3]
    rfl
  · rw [h3]
    norm_num

end AdaptiveCompliance
